import Mathlib

/-!
# MKL convolution layer: a verification development

Shallow embedding of `src/caffe/layers/mkl_convolution_layer.cpp`.

* C++ `int` values are `Int` in the range `IsInt32`; the `int` arithmetic of
  `compute_output_shape` wraps around at 32 bits (`wrapInt32`) and its division is
  partial (`intDiv`).  `size_t` values are `Nat` below `2 ^ 64`, with the conversion
  `toSizeT` and the wrapping product `smul`.
* The vendor library is an environment `Env`: it answers every status-returning
  call with an integer status and hands out primitive handles.  A handle names
  one creation (allocation identity), not an address.
* A member function is a state transformer `M α` over a `World` (the layer
  object, the trace of vendor calls issued so far, and the log of calls into
  blob and memory-descriptor helpers that are defined outside this file).
  A failed `CHECK` ends the run in `Outcome.aborted`.
-/

namespace MKLConv

/-! ## Machine integers -/

/-- Number of values of `size_t` (64-bit target). -/
def SIZE_MOD : Nat := 2 ^ 64

/-- Conversion of a C++ `int` to `size_t`. -/
def toSizeT (x : Int) : Nat := (x % (SIZE_MOD : Int)).toNat

/-- Product of two `size_t` values. -/
def smul (a b : Nat) : Nat := (a * b) % SIZE_MOD

/-- Range of a C++ `int` (32 bits). -/
def IsInt32 (x : Int) : Prop := -(2 ^ 31 : Int) ≤ x ∧ x < (2 ^ 31 : Int)

instance (x : Int) : Decidable (IsInt32 x) := by
  unfold IsInt32; infer_instance

/-- Result of an `int` addition, subtraction or multiplication whose exact value is
`x`: the value reduced modulo `2 ^ 32` into the range of `int` (two's complement). -/
def wrapInt32 (x : Int) : Int := (x + 2 ^ 31) % 2 ^ 32 - 2 ^ 31

/-- Quotient `a / b` of two `int` values, truncated toward zero.  The machine division
traps on a zero divisor and on `INT_MIN / -1`: the result is `none` there. -/
def intDiv (a b : Int) : Option Int :=
  if b = 0 ∨ (a = -(2 ^ 31) ∧ b = -1) then none else some (Int.tdiv a b)

/-! ## Data model -/

/-- Primitive handle: the number of the creation that returned it. -/
abbrev Handle := Nat

/-- Resource indices of the vendor API used by this file. -/
inductive Resource where
  | dnnResourceSrc
  | dnnResourceDst
  | dnnResourceFilter
  | dnnResourceBias
  | dnnResourceDiffSrc
  | dnnResourceDiffDst
  | dnnResourceDiffFilter
  | dnnResourceDiffBias
  | dnnResourceFrom
  | dnnResourceTo
  deriving DecidableEq

/-- The thirteen memory descriptors owned by the layer. -/
inductive DescName where
  | fwd_bottom_data
  | fwd_top_data
  | fwd_filter_data
  | fwd_bias_data
  | bwdd_top_diff
  | bwdd_bottom_diff
  | bwdd_filter_data
  | bwdf_top_diff
  | bwdf_filter_diff
  | bwdf2fwd_filter_diff
  | bwdf_bottom_data
  | bwdb_top_diff
  | bwdb_bias_diff
  deriving DecidableEq

/-- Which layout member of a descriptor a layout-creation call writes. -/
inductive LayoutField where
  | layout_int
  | layout_usr
  deriving DecidableEq

/-- The four compute-primitive members of the layer. -/
inductive PrimSlot where
  | convolutionFwd
  | convolutionBwdData
  | convolutionBwdFilter
  | convolutionBwdBias
  deriving DecidableEq

/-- The blobs the member functions touch. -/
inductive BlobRef where
  | bottom0
  | top0
  | blobs_0
  | blobs_1
  deriving DecidableEq

/-- Border type argument; the file only ever passes `dnnBorderZeros`. -/
inductive Border where
  | dnnBorderZeros
  deriving DecidableEq

/-- Algorithm argument; the file only ever passes `dnnAlgorithmConvolutionDirect`. -/
inductive Algorithm where
  | dnnAlgorithmConvolutionDirect
  deriving DecidableEq

/-- Arguments of `dnnGroupsConvolutionCreate{Forward,ForwardBias,BackwardData,BackwardFilter}`
(the attributes argument is always `NULL`). -/
structure ConvArgs where
  algorithm : Algorithm
  groups : Nat
  dimension : Nat
  srcSize : List Nat
  dstSize : List Nat
  filterSize : List Nat
  convolutionStrides : List Nat
  inputOffset : List Int
  border : Border
  deriving DecidableEq

/-- A layout object, named by the call that created it. -/
inductive Layout where
  | fromPrimitive (prim : Option Handle) (r : Resource)
  | user (dimension : Nat) (sizes strides : List Nat)
  deriving DecidableEq

/-- Buffers handed to `dnnExecute`. -/
inductive Ptr where
  | converted_prv (d : DescName) (blob : BlobRef) (set_prv_ptr : Bool)
      (converted_in_fwd : Option DescName)
  | prv_ptr (d : DescName)
  | mutable_cpu_data (b : BlobRef)
  | mutable_cpu_diff (b : BlobRef)
  deriving DecidableEq

/-- First argument of `dnnExecute`: a compute primitive member, or the
`convert_from_int` conversion primitive of a descriptor. -/
inductive PrimRef where
  | compute (h : Option Handle)
  | convert_from_int (d : DescName)
  deriving DecidableEq

/-- Calls of the vendor API made by this file. -/
inductive VendorCall where
  | dnnGroupsConvolutionCreateForwardBias (a : ConvArgs)
  | dnnGroupsConvolutionCreateForward (a : ConvArgs)
  | dnnGroupsConvolutionCreateBackwardData (a : ConvArgs)
  | dnnGroupsConvolutionCreateBackwardFilter (a : ConvArgs)
  | dnnGroupsConvolutionCreateBackwardBias (algorithm : Algorithm) (groups dimension : Nat)
      (dstSize : List Nat)
  | dnnLayoutCreateFromPrimitive (d : DescName) (f : LayoutField) (prim : Option Handle)
      (r : Resource)
  | dnnLayoutCreate (d : DescName) (f : LayoutField) (dimension : Nat)
      (sizes strides : List Nat)
  | dnnDelete (prim : Option Handle)
  | dnnExecute (prim : PrimRef) (resources : List (Resource × Ptr))
  deriving DecidableEq

/-- One vendor call as it happened: the call, the status the code read from it
(`none` for `dnnDelete`, whose result the code never reads), and the handle it
returned through its first argument, if any. -/
structure Event where
  call : VendorCall
  status : Option Int
  handle : Option Handle
  deriving DecidableEq

/-- Calls into blob and descriptor helpers that are defined outside this file. -/
inductive HelperCall where
  | get_converted_prv (d : DescName) (blob : BlobRef) (set_prv_ptr : Bool)
      (converted_in_fwd : Option DescName)
  | set_prv_data (blob : BlobRef) (p : Ptr) (d : DescName) (same_data : Bool)
  | set_prv_diff (blob : BlobRef) (p : Ptr) (d : DescName) (same_data : Bool)
  | create_conversions (d : DescName)
  deriving DecidableEq

/-- A blob as the layer sees it: its identity and its four legacy dimensions. -/
structure Blob where
  id : Nat
  num : Int
  channels : Int
  height : Int
  width : Int
  deriving DecidableEq

/-- State of one memory descriptor (`MKLData` / `MKLDiff`). -/
structure Desc where
  layout_int : Option Layout
  layout_usr : Option Layout
  convert_to_int : Bool
  convert_from_int : Bool
  deriving DecidableEq

/-- The layer object.  The first block of fields is owned by the base classes
(set by `ConvolutionLayer::LayerSetUp` from the layer parameter), the rest by
`MKLConvolutionLayer`. -/
structure Layer where
  group_ : Int
  channels_ : Int
  num_output_ : Int
  bias_term_ : Bool
  kernel_shape_ : Int × Int
  stride_ : Int × Int
  pad_ : Int × Int
  param_propagate_down_ : Bool × Bool
  num_ : Int
  bottom_shape_ : Option Nat
  width_ : Int
  height_ : Int
  width_out_ : Int
  height_out_ : Int
  kernel_w_ : Int
  kernel_h_ : Int
  stride_w_ : Int
  stride_h_ : Int
  pad_w_ : Int
  pad_h_ : Int
  convolutionFwd : Option Handle
  convolutionBwdData : Option Handle
  convolutionBwdFilter : Option Handle
  convolutionBwdBias : Option Handle
  descs : DescName → Desc

/-- The environment of a run: the vendor library and the helpers outside this file. -/
structure Env where
  /-- Value of `atoi(v.Build)` reported by `mkl_get_version`. -/
  mklBuild : Int
  /-- Status returned by the vendor call made after `k` earlier vendor calls. -/
  status : Nat → Int
  /-- Effect of `create_conversions()` on a descriptor. -/
  create_conversions : DescName → Desc → Desc

/-- Everything a member function can read or change. -/
structure World where
  layer : Layer
  trace : List Event
  log : List HelperCall
  fresh : Nat

/-- Result of running a member function. -/
inductive Outcome (α : Type) where
  | returned (a : α) (w : World)
  | aborted (w : World)

/-- The world in which a run ended. -/
def Outcome.world {α : Type} : Outcome α → World
  | .returned _ w => w
  | .aborted w => w

/-- Whether a run ended in a fatal `CHECK` failure. -/
def Outcome.isAborted {α : Type} : Outcome α → Bool
  | .returned _ _ => false
  | .aborted _ => true

/-- Member functions: state transformers that may abort. -/
def M (α : Type) : Type := World → Outcome α

/-- Sequencing: an aborted run stays aborted. -/
def M.bind {α β : Type} (m : M α) (f : α → M β) : M β := fun w =>
  match m w with
  | .returned a w' => f a w'
  | .aborted w' => .aborted w'

/-- Normal return. -/
def M.pure {α : Type} (a : α) : M α := fun w => .returned a w

instance : Monad M where
  pure := M.pure
  bind := M.bind

/-- Read the layer object. -/
def getLayer : M Layer := fun w => .returned w.layer w

/-- Update the layer object. -/
def modifyLayer (f : Layer → Layer) : M Unit := fun w =>
  .returned () { w with layer := f w.layer }

/-- Fatal assertion `CHECK(cond)`. -/
def CHECK (cond : Bool) : M Unit := fun w =>
  if cond then .returned () w else .aborted w

/-- Fatal assertion `CHECK_EQ(a, b)`. -/
def CHECK_EQ (a b : Int) : M Unit := fun w =>
  if a = b then .returned () w else .aborted w

/-- Record a call into a helper defined outside this file. -/
def helper (c : HelperCall) : M Unit := fun w =>
  .returned () { w with log := w.log ++ [c] }

/-! ## The vendor API -/

/-- Store a handle in one of the four primitive members. -/
def Layer.setPrim (l : Layer) (s : PrimSlot) (h : Option Handle) : Layer :=
  match s with
  | .convolutionFwd => { l with convolutionFwd := h }
  | .convolutionBwdData => { l with convolutionBwdData := h }
  | .convolutionBwdFilter => { l with convolutionBwdFilter := h }
  | .convolutionBwdBias => { l with convolutionBwdBias := h }

/-- Store a layout in a descriptor. -/
def Layer.setLayout (l : Layer) (d : DescName) (f : LayoutField) (v : Layout) : Layer :=
  { l with descs := fun x =>
      if x = d then
        match f with
        | .layout_int => { l.descs x with layout_int := some v }
        | .layout_usr => { l.descs x with layout_usr := some v }
      else l.descs x }

/-- A primitive-creation call writing the member `slot`: the vendor answers with
a status and, on success, a new handle. -/
def createPrimitive (env : Env) (slot : PrimSlot) (c : VendorCall) : M Int := fun w =>
  let status := env.status w.trace.length
  if status = 0 then
    .returned status
      { w with
        layer := w.layer.setPrim slot (some w.fresh)
        trace := w.trace ++ [{ call := c, status := some status, handle := some w.fresh }]
        fresh := w.fresh + 1 }
  else
    .returned status
      { w with trace := w.trace ++ [{ call := c, status := some status, handle := none }] }

/-- Vendor call `dnnGroupsConvolutionCreateForwardBias(&convolutionFwd, NULL, ...)`. -/
def dnnGroupsConvolutionCreateForwardBias (env : Env) (a : ConvArgs) : M Int :=
  createPrimitive env .convolutionFwd (.dnnGroupsConvolutionCreateForwardBias a)

/-- Vendor call `dnnGroupsConvolutionCreateForward(&convolutionFwd, NULL, ...)`. -/
def dnnGroupsConvolutionCreateForward (env : Env) (a : ConvArgs) : M Int :=
  createPrimitive env .convolutionFwd (.dnnGroupsConvolutionCreateForward a)

/-- Vendor call `dnnGroupsConvolutionCreateBackwardData(&convolutionBwdData, NULL, ...)`. -/
def dnnGroupsConvolutionCreateBackwardData (env : Env) (a : ConvArgs) : M Int :=
  createPrimitive env .convolutionBwdData (.dnnGroupsConvolutionCreateBackwardData a)

/-- Vendor call `dnnGroupsConvolutionCreateBackwardFilter(&convolutionBwdFilter, NULL, ...)`. -/
def dnnGroupsConvolutionCreateBackwardFilter (env : Env) (a : ConvArgs) : M Int :=
  createPrimitive env .convolutionBwdFilter (.dnnGroupsConvolutionCreateBackwardFilter a)

/-- Vendor call `dnnGroupsConvolutionCreateBackwardBias(&convolutionBwdBias, NULL, ...)`. -/
def dnnGroupsConvolutionCreateBackwardBias (env : Env) (alg : Algorithm)
    (groups dimension : Nat) (dstSize : List Nat) : M Int :=
  createPrimitive env .convolutionBwdBias
    (.dnnGroupsConvolutionCreateBackwardBias alg groups dimension dstSize)

/-- Vendor call `dnnLayoutCreateFromPrimitive(&d->f, prim, r)`. -/
def dnnLayoutCreateFromPrimitive (env : Env) (d : DescName) (f : LayoutField)
    (prim : Option Handle) (r : Resource) : M Int := fun w =>
  let status := env.status w.trace.length
  let ev : Event :=
    { call := .dnnLayoutCreateFromPrimitive d f prim r, status := some status, handle := none }
  if status = 0 then
    .returned status
      { w with
        layer := w.layer.setLayout d f (.fromPrimitive prim r)
        trace := w.trace ++ [ev] }
  else
    .returned status { w with trace := w.trace ++ [ev] }

/-- Vendor call `dnnLayoutCreate(&d->f, dimension, sizes, strides)`. -/
def dnnLayoutCreate (env : Env) (d : DescName) (f : LayoutField) (dimension : Nat)
    (sizes strides : List Nat) : M Int := fun w =>
  let status := env.status w.trace.length
  let ev : Event :=
    { call := .dnnLayoutCreate d f dimension sizes strides, status := some status,
      handle := none }
  if status = 0 then
    .returned status
      { w with
        layer := w.layer.setLayout d f (.user dimension sizes strides)
        trace := w.trace ++ [ev] }
  else
    .returned status { w with trace := w.trace ++ [ev] }

/-- Vendor call `dnnDelete(prim)`, written as a statement: no result is read. -/
def dnnDelete (prim : Option Handle) : M Unit := fun w =>
  .returned ()
    { w with trace := w.trace ++ [{ call := .dnnDelete prim, status := none, handle := none }] }

/-- Vendor call `dnnExecute(prim, resources)`. -/
def dnnExecute (env : Env) (prim : PrimRef) (resources : List (Resource × Ptr)) : M Int :=
  fun w =>
  let status := env.status w.trace.length
  .returned status
    { w with
      trace := w.trace ++ [{ call := .dnnExecute prim resources, status := some status,
                             handle := none }] }

/-! ## Helpers defined outside this file -/

/-- Call `d->create_conversions()`: the descriptor changes as the environment says. -/
def create_conversions (env : Env) (d : DescName) : M Unit := fun w =>
  .returned ()
    { w with
      layer := { w.layer with descs := fun x =>
        if x = d then env.create_conversions d (w.layer.descs x) else w.layer.descs x }
      log := w.log ++ [.create_conversions d] }

/-- Call `d->get_converted_prv(blob, set_prv_ptr, converted_in_fwd)`: the request is
logged and its result is the buffer the helper returns for it. -/
def get_converted_prv (d : DescName) (blob : BlobRef) (set_prv_ptr : Bool)
    (converted_in_fwd : Option DescName) : M Ptr := fun w =>
  .returned (.converted_prv d blob set_prv_ptr converted_in_fwd)
    { w with log := w.log ++ [.get_converted_prv d blob set_prv_ptr converted_in_fwd] }

/-! ## The functions of the file -/

/-- Function `getMKLBuildDate`: the function-local static caches `atoi(v.Build)`, so
every call returns that value. -/
def getMKLBuildDate (env : Env) : Int := env.mklBuild

/-- The expression `(input + 2 * pad - kernel) / stride + 1` of `compute_output_shape`,
evaluated as the machine does: the product, the sum, the difference and the final
increment are `int` operations that wrap around, the quotient is `intDiv`.  The value
is `none` when the division traps. -/
def outDimChecked (input pad kernel stride : Int) : Option Int :=
  (intDiv (wrapInt32 (wrapInt32 (input + wrapInt32 (2 * pad)) - kernel)) stride).map
    fun q => wrapInt32 (q + 1)

/-- The value that `compute_output_shape` stores for one axis: the value of
`outDimChecked`.  A trapping division ends the process outside of any `CHECK`; a run
has no later state then, the members keep no observable value, and `0` stands for it
here.  Every statement about the stored value is made where `outDimChecked` is `some`. -/
def outDim (input pad kernel stride : Int) : Int :=
  (outDimChecked input pad kernel stride).getD 0

/-- Member `compute_output_shape` (the base-class call only sets `output_shape_`,
which this file never reads).  The two assignments store `outDim`; the division of
either line traps exactly when `outDimChecked` of that axis is `none`. -/
def compute_output_shape : M Unit :=
  modifyLayer fun l =>
    { l with
      height_out_ := outDim l.height_ l.pad_h_ l.kernel_h_ l.stride_h_
      width_out_ := outDim l.width_ l.pad_w_ l.kernel_w_ l.stride_w_ }

/-- Destructor `~MKLConvolutionLayer`. -/
def destroy : M Unit := do
  let l ← getLayer
  dnnDelete l.convolutionFwd
  dnnDelete l.convolutionBwdData
  dnnDelete l.convolutionBwdFilter
  (if l.bias_term_ then dnnDelete l.convolutionBwdBias else pure ())

/-- Member `LayerSetUp(bottom, top)`.  The base-class `LayerSetUp` has filled the
base-class fields of the layer object and is taken not to abort; the debugging
names assigned at the end are not modelled. -/
def LayerSetUp (env : Env) (bottom0 : Blob) : M Unit := do
  modifyLayer fun l =>
    { l with width_ := bottom0.width, height_ := bottom0.height, num_ := bottom0.num }
  modifyLayer fun l =>
    { l with
      kernel_w_ := l.kernel_shape_.1
      kernel_h_ := l.kernel_shape_.2
      stride_w_ := l.stride_.1
      stride_h_ := l.stride_.2
      pad_w_ := l.pad_.1
      pad_h_ := l.pad_.2 }
  modifyLayer fun l => { l with bottom_shape_ := some bottom0.id }
  compute_output_shape
  let l ← getLayer
  let dimension : Nat := 4
  let g := toSizeT (max l.group_ 1)
  let n := toSizeT l.num_
  let iw := toSizeT l.width_
  let ih := toSizeT l.height_
  let ic := toSizeT l.channels_
  let ow := toSizeT l.width_out_
  let oh := toSizeT l.height_out_
  let oc := toSizeT l.num_output_
  let kw := toSizeT l.kernel_w_
  let kh := toSizeT l.kernel_h_
  let bdata_sizes := [iw, ih, ic, n]
  let bdata_strides := [1, iw, smul iw ih, smul (smul iw ih) ic]
  let g_mkl2017 := if getMKLBuildDate env < 20160701 then 1 else g
  let f_dimension :=
    if getMKLBuildDate env < 20160701 then dimension
    else dimension + (if g ≠ 1 then 1 else 0)
  let fdata_sizes := [kw, kh, ic / g, oc / g_mkl2017, g_mkl2017]
  let fdata_strides :=
    [1, kw, smul kw kh, smul (smul kw kh) ic / g, smul (smul (smul kw kh) ic / g) oc / g]
  let bias_sizes := [oc]
  let bias_strides := [1]
  let tdata_sizes := [ow, oh, oc, n]
  let tdata_strides := [1, ow, smul ow oh, smul (smul ow oh) oc]
  let convolutionStrides := [toSizeT l.stride_w_, toSizeT l.stride_h_]
  let inputOffset := [-l.pad_w_, -l.pad_h_]
  let args : ConvArgs :=
    { algorithm := .dnnAlgorithmConvolutionDirect, groups := g, dimension := dimension,
      srcSize := bdata_sizes, dstSize := tdata_sizes, filterSize := fdata_sizes,
      convolutionStrides := convolutionStrides, inputOffset := inputOffset,
      border := .dnnBorderZeros }
  let status ←
    (if l.bias_term_ then dnnGroupsConvolutionCreateForwardBias env args
     else dnnGroupsConvolutionCreateForward env args)
  CHECK_EQ status 0
  let status ← dnnLayoutCreateFromPrimitive env .fwd_bottom_data .layout_int
    (← getLayer).convolutionFwd .dnnResourceSrc
  CHECK_EQ status 0
  let status ← dnnLayoutCreateFromPrimitive env .fwd_top_data .layout_int
    (← getLayer).convolutionFwd .dnnResourceDst
  CHECK_EQ status 0
  let status ← dnnLayoutCreateFromPrimitive env .fwd_filter_data .layout_int
    (← getLayer).convolutionFwd .dnnResourceFilter
  CHECK_EQ status 0
  let status ← dnnLayoutCreate env .fwd_bottom_data .layout_usr dimension bdata_sizes
    bdata_strides
  CHECK_EQ status 0
  let status ← dnnLayoutCreate env .fwd_top_data .layout_usr dimension tdata_sizes
    tdata_strides
  CHECK_EQ status 0
  let status ← dnnLayoutCreate env .fwd_filter_data .layout_usr f_dimension fdata_sizes
    fdata_strides
  CHECK_EQ status 0
  create_conversions env .fwd_bottom_data
  create_conversions env .fwd_top_data
  create_conversions env .fwd_filter_data
  (if l.bias_term_ then do
    let status ← dnnLayoutCreateFromPrimitive env .fwd_bias_data .layout_int
      (← getLayer).convolutionFwd .dnnResourceBias
    CHECK_EQ status 0
    let status ← dnnLayoutCreate env .fwd_bias_data .layout_usr 1 bias_sizes bias_strides
    CHECK_EQ status 0
    create_conversions env .fwd_bias_data
  else pure ())
  -- Backward by data layer setup
  let status ← dnnGroupsConvolutionCreateBackwardData env args
  CHECK_EQ status 0
  let status ← dnnLayoutCreateFromPrimitive env .bwdd_bottom_diff .layout_int
    (← getLayer).convolutionBwdData .dnnResourceDiffSrc
  CHECK_EQ status 0
  let status ← dnnLayoutCreateFromPrimitive env .bwdd_top_diff .layout_int
    (← getLayer).convolutionBwdData .dnnResourceDiffDst
  CHECK_EQ status 0
  let status ← dnnLayoutCreateFromPrimitive env .bwdd_filter_data .layout_int
    (← getLayer).convolutionBwdData .dnnResourceFilter
  CHECK_EQ status 0
  let status ← dnnLayoutCreate env .bwdd_bottom_diff .layout_usr dimension bdata_sizes
    bdata_strides
  CHECK_EQ status 0
  let status ← dnnLayoutCreate env .bwdd_top_diff .layout_usr dimension tdata_sizes
    tdata_strides
  CHECK_EQ status 0
  let status ← dnnLayoutCreate env .bwdd_filter_data .layout_usr f_dimension fdata_sizes
    fdata_strides
  CHECK_EQ status 0
  create_conversions env .bwdd_bottom_diff
  create_conversions env .bwdd_top_diff
  create_conversions env .bwdd_filter_data
  -- Backward by filter layer setup
  let status ← dnnGroupsConvolutionCreateBackwardFilter env args
  CHECK_EQ status 0
  let status ← dnnLayoutCreateFromPrimitive env .bwdf_bottom_data .layout_int
    (← getLayer).convolutionBwdFilter .dnnResourceSrc
  CHECK_EQ status 0
  let status ← dnnLayoutCreateFromPrimitive env .bwdf_top_diff .layout_int
    (← getLayer).convolutionBwdFilter .dnnResourceDiffDst
  CHECK_EQ status 0
  let status ← dnnLayoutCreateFromPrimitive env .bwdf_filter_diff .layout_int
    (← getLayer).convolutionFwd .dnnResourceFilter
  CHECK_EQ status 0
  let status ← dnnLayoutCreateFromPrimitive env .bwdf2fwd_filter_diff .layout_int
    (← getLayer).convolutionBwdFilter .dnnResourceDiffFilter
  CHECK_EQ status 0
  let status ← dnnLayoutCreateFromPrimitive env .bwdf2fwd_filter_diff .layout_usr
    (← getLayer).convolutionFwd .dnnResourceFilter
  CHECK_EQ status 0
  let status ← dnnLayoutCreate env .bwdf_bottom_data .layout_usr dimension bdata_sizes
    bdata_strides
  CHECK_EQ status 0
  let status ← dnnLayoutCreate env .bwdf_top_diff .layout_usr dimension tdata_sizes
    tdata_strides
  CHECK_EQ status 0
  let status ← dnnLayoutCreate env .bwdf_filter_diff .layout_usr f_dimension fdata_sizes
    fdata_strides
  CHECK_EQ status 0
  create_conversions env .bwdf_bottom_data
  create_conversions env .bwdf_top_diff
  create_conversions env .bwdf_filter_diff
  create_conversions env .bwdf2fwd_filter_diff
  -- Backward by bias layer setup
  (if l.bias_term_ then do
    let status ← dnnGroupsConvolutionCreateBackwardBias env .dnnAlgorithmConvolutionDirect g
      dimension tdata_sizes
    CHECK_EQ status 0
    let status ← dnnLayoutCreateFromPrimitive env .bwdb_top_diff .layout_int
      (← getLayer).convolutionBwdBias .dnnResourceDiffDst
    CHECK_EQ status 0
    let status ← dnnLayoutCreateFromPrimitive env .bwdb_bias_diff .layout_int
      (← getLayer).convolutionBwdBias .dnnResourceDiffBias
    CHECK_EQ status 0
    let status ← dnnLayoutCreate env .bwdb_top_diff .layout_usr dimension tdata_sizes
      tdata_strides
    CHECK_EQ status 0
    let status ← dnnLayoutCreate env .bwdb_bias_diff .layout_usr 1 bias_sizes bias_strides
    CHECK_EQ status 0
    create_conversions env .bwdb_top_diff
    create_conversions env .bwdb_bias_diff
  else pure ())

/-- Member `Reshape(bottom, top)`.  The base-class `Reshape` is taken not to abort
and touches none of the fields used here. -/
def Reshape (env : Env) (bottom0 : Blob) : M Unit := do
  let l ← getLayer
  (if l.width_ = bottom0.width ∧ l.height_ = bottom0.height ∧
      l.channels_ = bottom0.channels ∧ l.num_ = bottom0.num then
    pure ()
  else do
    -- Free MKL primitives
    dnnDelete l.convolutionFwd
    dnnDelete l.convolutionBwdData
    -- Reinit layer params
    modifyLayer fun l =>
      { l with width_ := bottom0.width, height_ := bottom0.height, num_ := bottom0.num }
    modifyLayer fun l => { l with bottom_shape_ := some bottom0.id }
    compute_output_shape
    let l ← getLayer
    let dimension : Nat := 4
    let g := toSizeT l.group_
    let n := toSizeT l.num_
    let ic := toSizeT l.channels_
    let kw := toSizeT l.kernel_w_
    let kh := toSizeT l.kernel_h_
    let oc := toSizeT l.num_output_
    let bdata_sizes := [toSizeT l.width_, toSizeT l.height_, ic, n]
    -- the source also computes `f_dimension` here, as `LayerSetUp` does, and never reads it
    let g_mkl2017 := if getMKLBuildDate env < 20160701 then 1 else g
    let fdata_sizes := [kw, kh, ic / g, oc / g_mkl2017, g_mkl2017]
    let tdata_sizes := [toSizeT l.width_out_, toSizeT l.height_out_, oc, n]
    let convolutionStrides := [toSizeT l.stride_w_, toSizeT l.stride_h_]
    let inputOffset := [-l.pad_w_, -l.pad_h_]
    let args : ConvArgs :=
      { algorithm := .dnnAlgorithmConvolutionDirect, groups := g, dimension := dimension,
        srcSize := bdata_sizes, dstSize := tdata_sizes, filterSize := fdata_sizes,
        convolutionStrides := convolutionStrides, inputOffset := inputOffset,
        border := .dnnBorderZeros }
    -- Recreate MKL primitives
    let status ←
      (if l.bias_term_ then dnnGroupsConvolutionCreateForwardBias env args
       else dnnGroupsConvolutionCreateForward env args)
    CHECK_EQ status 0
    let status ← dnnGroupsConvolutionCreateBackwardData env args
    CHECK_EQ status 0)

/-- The first shape `CHECK` of `Forward_cpu` / `Backward_cpu`: each `int` dimension of
the blob is compared with a `size_t` local, so it is converted to `size_t`. -/
def bottomShapeCheck (l : Layer) (bottom0 : Blob) : Bool :=
  let g := toSizeT l.group_
  let n := toSizeT l.num_
  let iw := toSizeT l.width_
  let ih := toSizeT l.height_
  let ic := toSizeT l.channels_ / g
  toSizeT bottom0.width == iw && toSizeT bottom0.height == ih &&
    toSizeT bottom0.channels == smul ic g && toSizeT bottom0.num == n

/-- The second shape `CHECK` of `Forward_cpu` / `Backward_cpu`. -/
def topShapeCheck (l : Layer) (top0 : Blob) : Bool :=
  let g := toSizeT l.group_
  let n := toSizeT l.num_
  let ow := toSizeT l.width_out_
  let oh := toSizeT l.height_out_
  let oc := toSizeT l.num_output_ / g
  toSizeT top0.width == ow && toSizeT top0.height == oh &&
    toSizeT top0.channels == smul oc g && toSizeT top0.num == n

/-- Member `Forward_cpu(bottom, top)`. -/
def Forward_cpu (env : Env) (bottom0 top0 : Blob) : M Unit := do
  let l ← getLayer
  CHECK (bottomShapeCheck l bottom0)
  CHECK (topShapeCheck l top0)
  let src ← get_converted_prv .fwd_bottom_data .bottom0 false none
  let filter ← get_converted_prv .fwd_filter_data .blobs_0 true none
  let res_convolutionFwd := [(Resource.dnnResourceSrc, src), (.dnnResourceFilter, filter)]
  let res_convolutionFwd ←
    (if l.bias_term_ then do
      let bias ← get_converted_prv .fwd_bias_data .blobs_1 true none
      pure (res_convolutionFwd ++ [(.dnnResourceBias, bias)])
    else pure res_convolutionFwd)
  let res_convolutionFwd ←
    (if (l.descs .fwd_top_data).convert_from_int then do
      helper (.set_prv_data .top0 (.prv_ptr .fwd_top_data) .fwd_top_data false)
      pure (res_convolutionFwd ++ [(.dnnResourceDst, .prv_ptr .fwd_top_data)])
    else pure (res_convolutionFwd ++ [(.dnnResourceDst, .mutable_cpu_data .top0)]))
  let status ← dnnExecute env (.compute l.convolutionFwd) res_convolutionFwd
  CHECK_EQ status 0

/-- Member `Backward_cpu(top, propagate_down, bottom)`. -/
def Backward_cpu (env : Env) (top0 : Blob) (propagate_down0 : Bool) (bottom0 : Blob) :
    M Unit := do
  let l ← getLayer
  CHECK (bottomShapeCheck l bottom0)
  CHECK (topShapeCheck l top0)
  (if propagate_down0 then do
    let diffDst ← get_converted_prv .bwdd_top_diff .top0 true none
    let filter ← get_converted_prv .bwdd_filter_data .blobs_0 false none
    let res_convolutionBwdData :=
      [(Resource.dnnResourceDiffDst, diffDst), (.dnnResourceFilter, filter)]
    let res_convolutionBwdData ←
      (if (l.descs .bwdd_bottom_diff).convert_from_int then do
        helper (.set_prv_diff .bottom0 (.prv_ptr .bwdd_bottom_diff) .bwdd_bottom_diff false)
        pure (res_convolutionBwdData ++ [(.dnnResourceDiffSrc, .prv_ptr .bwdd_bottom_diff)])
      else
        pure (res_convolutionBwdData ++ [(.dnnResourceDiffSrc, .mutable_cpu_diff .bottom0)]))
    let status ← dnnExecute env (.compute l.convolutionBwdData) res_convolutionBwdData
    CHECK_EQ status 0
  else pure ())
  (if l.param_propagate_down_.1 then do
    let diffDst ← get_converted_prv .bwdf_top_diff .top0 true none
    let src ← get_converted_prv .bwdf_bottom_data .bottom0 false (some .fwd_bottom_data)
    let res_convolutionBwdFilter :=
      [(Resource.dnnResourceDiffDst, diffDst), (.dnnResourceSrc, src)]
    (if (l.descs .bwdf_filter_diff).convert_from_int then
      helper (.set_prv_diff .blobs_0 (.prv_ptr .bwdf_filter_diff) .bwdf_filter_diff false)
    else pure ())
    let res_convolutionBwdFilter :=
      if (l.descs .bwdf2fwd_filter_diff).convert_from_int then
        res_convolutionBwdFilter ++ [(.dnnResourceDiffFilter, .prv_ptr .bwdf2fwd_filter_diff)]
      else if (l.descs .bwdf_filter_diff).convert_from_int then
        res_convolutionBwdFilter ++ [(.dnnResourceDiffFilter, .prv_ptr .bwdf_filter_diff)]
      else
        res_convolutionBwdFilter ++ [(.dnnResourceDiffFilter, .mutable_cpu_diff .blobs_0)]
    let status ← dnnExecute env (.compute l.convolutionBwdFilter) res_convolutionBwdFilter
    CHECK_EQ status 0
    (if (l.descs .bwdf2fwd_filter_diff).convert_from_int then do
      let convert_resources := [(Resource.dnnResourceFrom, Ptr.prv_ptr .bwdf2fwd_filter_diff)]
      let convert_resources :=
        if (l.descs .bwdf_filter_diff).convert_from_int then
          convert_resources ++ [(.dnnResourceTo, .prv_ptr .bwdf_filter_diff)]
        else
          convert_resources ++ [(.dnnResourceTo, .mutable_cpu_diff .blobs_0)]
      let status ← dnnExecute env (.convert_from_int .bwdf2fwd_filter_diff) convert_resources
      CHECK_EQ status 0
    else pure ())
  else pure ())
  (if l.param_propagate_down_.2 then do
    let diffDst ← get_converted_prv .bwdb_top_diff .top0 true none
    let res_convolutionBwdBias := [(Resource.dnnResourceDiffDst, diffDst)]
    let res_convolutionBwdBias ←
      (if (l.descs .bwdb_bias_diff).convert_from_int then do
        helper (.set_prv_diff .blobs_1 (.prv_ptr .bwdb_bias_diff) .bwdb_bias_diff false)
        pure (res_convolutionBwdBias ++ [(.dnnResourceDiffBias, .prv_ptr .bwdb_bias_diff)])
      else
        pure (res_convolutionBwdBias ++ [(.dnnResourceDiffBias, .mutable_cpu_diff .blobs_1)]))
    let status ← dnnExecute env (.compute l.convolutionBwdBias) res_convolutionBwdBias
    CHECK_EQ status 0
  else pure ())

/-- Constructor: the layer object as `MKLConvolutionLayer(param)` and the base classes
leave it, with all four primitive members `NULL` and empty descriptors. -/
def construct (group_ channels_ num_output_ : Int) (bias_term_ : Bool)
    (kernel_shape_ stride_ pad_ : Int × Int) (param_propagate_down_ : Bool × Bool) : Layer :=
  { group_ := group_, channels_ := channels_, num_output_ := num_output_,
    bias_term_ := bias_term_, kernel_shape_ := kernel_shape_, stride_ := stride_,
    pad_ := pad_, param_propagate_down_ := param_propagate_down_,
    num_ := 0, bottom_shape_ := none, width_ := 0, height_ := 0,
    width_out_ := 0, height_out_ := 0, kernel_w_ := 0, kernel_h_ := 0,
    stride_w_ := 0, stride_h_ := 0, pad_w_ := 0, pad_h_ := 0,
    convolutionFwd := none, convolutionBwdData := none,
    convolutionBwdFilter := none, convolutionBwdBias := none,
    descs := fun _ =>
      { layout_int := none, layout_usr := none, convert_to_int := false,
        convert_from_int := false } }

/-- A world that starts with the given layer object and no vendor call made yet. -/
def World.start (l : Layer) : World := { layer := l, trace := [], log := [], fresh := 0 }

/-- The vendor calls a run issued: what it appended to the trace it started from. -/
def issued {α : Type} (w : World) (o : Outcome α) : List Event :=
  o.world.trace.drop w.trace.length

/-- The lifetime of a layer after `LayerSetUp`: the `Reshape` calls, one per bottom. -/
def reshapeAll (env : Env) : List Blob → M Unit
  | [] => pure ()
  | b :: bs => do
    Reshape env b
    reshapeAll env bs

/-- A whole lifetime on a constructed layer: `LayerSetUp`, the `Reshape` calls, the
destructor. -/
def lifecycle (env : Env) (bottom0 : Blob) (bottoms : List Blob) : M Unit := do
  LayerSetUp env bottom0
  reshapeAll env bottoms
  destroy

/-! ## Vocabulary of the properties -/

/-- A vendor call whose status was read and was not zero. -/
def Failed (e : Event) : Prop := ∃ s, e.status = some s ∧ s ≠ 0

/-- Weakest precondition of a run: `Q` on normal return, `A` on abort. -/
def wp {α : Type} (m : M α) (Q : α → World → Prop) (A : World → Prop) (w : World) : Prop :=
  match m w with
  | .returned a w' => Q a w'
  | .aborted w' => A w'

/-- The trace property `T` is kept by `m` on normal return, and `A` holds on abort. -/
structure KeepsT (T A : List Event → Prop) {α : Type} (m : M α) : Prop where
  run : ∀ w, T w.trace → wp m (fun _ w' => T w'.trace) (fun w' => A w'.trace) w

/-- The action `m` is one status-returning vendor call, of a kind described by `C`. -/
structure StatusCall (m : M Int) (C : VendorCall → Prop) : Prop where
  run : ∀ w, ∃ s ev w', m w = .returned s w' ∧ w'.trace = w.trace ++ [ev] ∧
    ev.status = some s ∧ C ev.call

/-- The action `m` returns normally and makes no vendor call. -/
structure Silent {α : Type} (m : M α) : Prop where
  run : ∀ w, ∃ a w', m w = .returned a w' ∧ w'.trace = w.trace

/-- Appending a checked call of kind `C` keeps `T` when it succeeded and gives `A`
when it failed. -/
structure Admits (T A : List Event → Prop) (C : VendorCall → Prop) : Prop where
  run : ∀ t ev, T t → C ev.call →
    (ev.status = some 0 → T (t ++ [ev])) ∧ (Failed ev → A (t ++ [ev]))

/-- The trace `t` extends `t0` by events that all satisfy `Z`. -/
def Clean (Z : Event → Prop) (t0 t : List Event) : Prop :=
  ∃ new, t = t0 ++ new ∧ ∀ e ∈ new, Z e

/-- The trace `t` extends `t0` by events satisfying `Z` and then one failed call. -/
def FailEnd (Z : Event → Prop) (t0 t : List Event) : Prop :=
  ∃ pre e, t = t0 ++ (pre ++ [e]) ∧ (∀ x ∈ pre, Z x) ∧ Failed e

/-- The blob dimensions agree with the layer's cached shape. -/
def ShapesMatch (l : Layer) (bottom0 top0 : Blob) : Prop :=
  (bottom0.width, bottom0.height, bottom0.channels, bottom0.num) =
      (l.width_, l.height_, l.channels_, l.num_) ∧
  (top0.width, top0.height, top0.channels, top0.num) =
      (l.width_out_, l.height_out_, l.num_output_, l.num_)

instance (l : Layer) (bottom0 top0 : Blob) : Decidable (ShapesMatch l bottom0 top0) := by
  unfold ShapesMatch; infer_instance

/-- The `int` members read by the shape checks hold values of the type `int`. -/
def Layer.InRange (l : Layer) : Prop :=
  IsInt32 l.group_ ∧ IsInt32 l.channels_ ∧ IsInt32 l.num_output_ ∧ IsInt32 l.num_ ∧
  IsInt32 l.width_ ∧ IsInt32 l.height_ ∧ IsInt32 l.width_out_ ∧ IsInt32 l.height_out_

instance (l : Layer) : Decidable l.InRange := by
  unfold Layer.InRange; infer_instance

/-- The dimensions of a blob hold values of the type `int`. -/
def Blob.InRange (b : Blob) : Prop :=
  IsInt32 b.num ∧ IsInt32 b.channels ∧ IsInt32 b.height ∧ IsInt32 b.width

instance (b : Blob) : Decidable b.InRange := by
  unfold Blob.InRange; infer_instance

/-- The cached dimensions of the layer are non-negative. -/
def Layer.NonNegDims (l : Layer) : Prop :=
  0 ≤ l.width_ ∧ 0 ≤ l.height_ ∧ 0 ≤ l.channels_ ∧ 0 ≤ l.num_ ∧
  0 ≤ l.width_out_ ∧ 0 ≤ l.height_out_ ∧ 0 ≤ l.num_output_

instance (l : Layer) : Decidable l.NonNegDims := by
  unfold Layer.NonNegDims; infer_instance

/-! ## Vocabulary: layouts -/

/-- A layout is dense: the first stride is 1 and each further stride is the previous
stride times the previous size, over the first `dimension` entries. -/
def Dense (dimension : Nat) (sizes strides : List Nat) : Prop :=
  dimension ≤ sizes.length ∧ dimension ≤ strides.length ∧ strides.getD 0 0 = 1 ∧
  ∀ i, i + 1 < dimension → strides.getD (i + 1) 0 = strides.getD i 0 * sizes.getD i 0

/-- None of the `size_t` products that `LayerSetUp` computes for the strides wraps. -/
def NoOverflow (l : Layer) (b : Blob) : Prop :=
  let g := toSizeT (max l.group_ 1)
  let iw := toSizeT b.width
  let ih := toSizeT b.height
  let ic := toSizeT l.channels_
  let ow := toSizeT (outDim b.width l.pad_.1 l.kernel_shape_.1 l.stride_.1)
  let oh := toSizeT (outDim b.height l.pad_.2 l.kernel_shape_.2 l.stride_.2)
  let oc := toSizeT l.num_output_
  let kw := toSizeT l.kernel_shape_.1
  let kh := toSizeT l.kernel_shape_.2
  iw * ih < SIZE_MOD ∧ iw * ih * ic < SIZE_MOD ∧
  ow * oh < SIZE_MOD ∧ ow * oh * oc < SIZE_MOD ∧
  kw * kh < SIZE_MOD ∧ kw * kh * ic < SIZE_MOD ∧ kw * kh * ic / g * oc < SIZE_MOD

instance (l : Layer) (b : Blob) : Decidable (NoOverflow l b) := by
  unfold NoOverflow; infer_instance

/-- Shape of the `dnnLayoutCreate` calls of `LayerSetUp`, started on the layer `l` with
the bottom blob `b`: which descriptors get which dimension, sizes and strides. -/
def LayoutForm (env : Env) (l : Layer) (b : Blob) (c : VendorCall) : Prop :=
  ∀ d f dim sizes strides, c = .dnnLayoutCreate d f dim sizes strides →
    let g := toSizeT (max l.group_ 1)
    let n := toSizeT b.num
    let iw := toSizeT b.width
    let ih := toSizeT b.height
    let ic := toSizeT l.channels_
    let ow := toSizeT (outDim b.width l.pad_.1 l.kernel_shape_.1 l.stride_.1)
    let oh := toSizeT (outDim b.height l.pad_.2 l.kernel_shape_.2 l.stride_.2)
    let oc := toSizeT l.num_output_
    let kw := toSizeT l.kernel_shape_.1
    let kh := toSizeT l.kernel_shape_.2
    let gm := if env.mklBuild < 20160701 then 1 else g
    f = .layout_usr ∧
    (((d = .fwd_bottom_data ∨ d = .bwdd_bottom_diff ∨ d = .bwdf_bottom_data) ∧
        dim = 4 ∧ sizes = [iw, ih, ic, n] ∧
        strides = [1, iw, smul iw ih, smul (smul iw ih) ic]) ∨
     ((d = .fwd_top_data ∨ d = .bwdd_top_diff ∨ d = .bwdf_top_diff ∨ d = .bwdb_top_diff) ∧
        dim = 4 ∧ sizes = [ow, oh, oc, n] ∧
        strides = [1, ow, smul ow oh, smul (smul ow oh) oc]) ∨
     ((d = .fwd_filter_data ∨ d = .bwdd_filter_data ∨ d = .bwdf_filter_diff) ∧
        dim = (if env.mklBuild < 20160701 then 4 else 4 + (if g ≠ 1 then 1 else 0)) ∧
        sizes = [kw, kh, ic / g, oc / gm, gm] ∧
        strides = [1, kw, smul kw kh, smul (smul kw kh) ic / g,
          smul (smul (smul kw kh) ic / g) oc / g]) ∨
     ((d = .fwd_bias_data ∨ d = .bwdb_bias_diff) ∧
        dim = 1 ∧ sizes = [oc] ∧ strides = [1]))

/-! ## Vocabulary: handle accounting -/

/-- Handles returned by the creation calls of a trace. -/
def createdHandles (t : List Event) : List Handle := t.filterMap (fun e => e.handle)

/-- Arguments of the `dnnDelete` calls of a trace, in order. -/
def deletedArgs (t : List Event) : List (Option Handle) :=
  t.filterMap (fun e => match e.call with
    | .dnnDelete p => some p
    | _ => none)

/-- Whether a call is `dnnGroupsConvolutionCreateBackwardBias`. -/
def isBackwardBiasCreate : VendorCall → Bool
  | .dnnGroupsConvolutionCreateBackwardBias _ _ _ _ => true
  | _ => false

/-- The forward and backward-data creation calls of a trace, in order. -/
def convCreateCalls (t : List Event) : List VendorCall :=
  t.filterMap (fun e => match e.call with
    | .dnnGroupsConvolutionCreateForwardBias a => some (.dnnGroupsConvolutionCreateForwardBias a)
    | .dnnGroupsConvolutionCreateForward a => some (.dnnGroupsConvolutionCreateForward a)
    | .dnnGroupsConvolutionCreateBackwardData a =>
        some (.dnnGroupsConvolutionCreateBackwardData a)
    | _ => none)

/-- The part of a world that matters for the handle accounting. -/
structure Res where
  bias : Bool
  fwd : Option Handle
  bwdData : Option Handle
  bwdFilter : Option Handle
  bwdBias : Option Handle
  created : List Handle
  deleted : List (Option Handle)
  biasCreates : List Event
  fresh : Nat

/-- Handle accounting of a world. -/
def World.res (w : World) : Res :=
  { bias := w.layer.bias_term_, fwd := w.layer.convolutionFwd,
    bwdData := w.layer.convolutionBwdData, bwdFilter := w.layer.convolutionBwdFilter,
    bwdBias := w.layer.convolutionBwdBias, created := createdHandles w.trace,
    deleted := deletedArgs w.trace,
    biasCreates := w.trace.filter (fun e => isBackwardBiasCreate e.call),
    fresh := w.fresh }

/-- The handles held by the layer are exactly the created handles not yet deleted. -/
def Balanced (r : Res) : Prop :=
  ∃ a b c, r.fwd = some a ∧ r.bwdData = some b ∧ r.bwdFilter = some c ∧
    (∃ held, (if r.bias then ∃ d, r.bwdBias = some d ∧ held = [some a, some b, some c, some d]
        else held = [some a, some b, some c]) ∧
      (r.deleted ++ held).Perm (r.created.map some)) ∧
    r.created.Nodup ∧ (∀ h ∈ r.created, h < r.fresh) ∧
    r.biasCreates.length = (if r.bias then 1 else 0)

/-! ## Vocabulary: creation arguments -/

/-- The argument tuple of a convolution-primitive creation for a layer configuration and a
bottom shape, written from the configuration alone: groups `max(group_, 1)`, four
dimensions, source `{iw, ih, ic, n}`, destination `{ow, oh, oc, n}`, the filter sizes,
the strides, the negated pads and zero borders. -/
def createArgs (env : Env) (l : Layer) (b : Blob) : ConvArgs :=
  let g := toSizeT (max l.group_ 1)
  let ic := toSizeT l.channels_
  let oc := toSizeT l.num_output_
  let gm := if env.mklBuild < 20160701 then 1 else g
  { algorithm := .dnnAlgorithmConvolutionDirect
    groups := g
    dimension := 4
    srcSize := [toSizeT b.width, toSizeT b.height, ic, toSizeT b.num]
    dstSize := [toSizeT (outDim b.width l.pad_.1 l.kernel_shape_.1 l.stride_.1),
                toSizeT (outDim b.height l.pad_.2 l.kernel_shape_.2 l.stride_.2),
                oc, toSizeT b.num]
    filterSize := [toSizeT l.kernel_shape_.1, toSizeT l.kernel_shape_.2, ic / g, oc / gm, gm]
    convolutionStrides := [toSizeT l.stride_.1, toSizeT l.stride_.2]
    inputOffset := [-l.pad_.1, -l.pad_.2]
    border := .dnnBorderZeros }

/-- The forward creation call for a configuration: the bias variant when `bias_term_`. -/
def forwardCreateCall (env : Env) (l : Layer) (b : Blob) : VendorCall :=
  if l.bias_term_ then .dnnGroupsConvolutionCreateForwardBias (createArgs env l b)
  else .dnnGroupsConvolutionCreateForward (createArgs env l b)

/-- The kernel, stride and pad members cached by `LayerSetUp` agree with the base-class
blobs they were read from. -/
def Layer.CachedFromConfig (l : Layer) : Prop :=
  l.kernel_w_ = l.kernel_shape_.1 ∧ l.kernel_h_ = l.kernel_shape_.2 ∧
  l.stride_w_ = l.stride_.1 ∧ l.stride_h_ = l.stride_.2 ∧
  l.pad_w_ = l.pad_.1 ∧ l.pad_h_ = l.pad_.2

/-! ## Vocabulary: conversion reuse -/

/-- The helper calls a run logged: what it appended to the log it started from. -/
def logged {α : Type} (w : World) (o : Outcome α) : List HelperCall :=
  o.world.log.drop w.log.length

/-- The action `m` logs only helper calls that satisfy `P`, whether it returns or aborts. -/
structure LogsOnly (P : HelperCall → Prop) {α : Type} (m : M α) : Prop where
  run : ∀ w, ∃ new, (m w).world.log = w.log ++ new ∧ ∀ c ∈ new, P c

/-- Whether a descriptor is an `MKLDiff` (it describes the diff of a blob) rather than an
`MKLData`, as the constructor's initialiser list creates it. -/
def DescName.isDiff : DescName → Bool
  | .bwdd_top_diff => true
  | .bwdd_bottom_diff => true
  | .bwdf_top_diff => true
  | .bwdf_filter_diff => true
  | .bwdf2fwd_filter_diff => true
  | .bwdb_top_diff => true
  | .bwdb_bias_diff => true
  | _ => false

/-- Modelled from the spec: what the vendor layouts of the descriptors look like to
`get_converted_prv`, which is defined with the memory descriptors outside this file.
`sameLayout f d` says that the internal layouts of `f` and `d` are equal;
`needsConversion d` that the user layout of `d` differs from its internal layout, so that
handing the blob to a primitive takes a layout conversion. -/
structure PrvModel where
  sameLayout : DescName → DescName → Bool
  needsConversion : DescName → Bool

/-- Modelled from the spec: the conversion cache, missing from this file.  For each
descriptor, the blob whose converted contents its internal buffer holds, if any. -/
abbrev PrvCache := DescName → Option BlobRef

/-- Modelled from the spec: `get_converted_prv` and the blob setters, defined outside this
file, as far as layout conversions go.  The spec's glossary says a layout conversion is
"cached and reused across forward/backward calls to avoid repeated reformatting cost", and
the caller's comment that the last argument of `get_converted_prv` is for "reusing
conversion done already in the forward direction".  So a request for `blob` through the
descriptor `d` executes no conversion when `d` needs none, when the buffer of `d` already
holds the converted blob, or when the descriptor named for reuse has the same internal
layout and its buffer holds the converted blob; otherwise it executes the conversion of
`d`, whose buffer then holds the converted blob.  Replacing the private data (diff) of a
blob drops what the data (diff) descriptors held for that blob.  The result is the new
cache and the descriptors whose conversion primitive was executed. -/
def PrvModel.serve (m : PrvModel) (cache : PrvCache) : HelperCall → PrvCache × List DescName
  | .get_converted_prv d blob _ converted_in_fwd =>
    if m.needsConversion d then
      if cache d = some blob then (cache, [])
      else
        match converted_in_fwd with
        | some f =>
          if m.sameLayout f d ∧ cache f = some blob then (cache, [])
          else (fun x => if x = d then some blob else cache x, [d])
        | none => (fun x => if x = d then some blob else cache x, [d])
    else (cache, [])
  | .set_prv_data blob _ _ _ =>
    (fun x => if x.isDiff = false ∧ cache x = some blob then none else cache x, [])
  | .set_prv_diff blob _ _ _ =>
    (fun x => if x.isDiff = true ∧ cache x = some blob then none else cache x, [])
  | .create_conversions d => (fun x => if x = d then none else cache x, [])

/-- Modelled from the spec: serving a log of helper calls in order; each call is paired
with the conversions it executed. -/
def PrvModel.serveLog (m : PrvModel) : PrvCache → List HelperCall →
    List (HelperCall × List DescName)
  | _, [] => []
  | cache, c :: cs => (c, (m.serve cache c).2) :: m.serveLog (m.serve cache c).1 cs

/-- Helper calls that leave alone what the buffer of `fwd_bottom_data` holds for the
bottom blob: requests through other descriptors, and setters other than a new private
data for the bottom blob. -/
def KeepsFwdBottom : HelperCall → Prop
  | .get_converted_prv d _ _ _ => d ≠ .fwd_bottom_data
  | .set_prv_data blob _ _ _ => blob ≠ .bottom0
  | .set_prv_diff _ _ _ _ => True
  | .create_conversions d => d ≠ .fwd_bottom_data

/-- The only form of a request through `bwdf_bottom_data`: for the bottom blob, without
setting its private pointer, naming `fwd_bottom_data` for reuse. -/
def NamesFwdForReuse : HelperCall → Prop
  | .get_converted_prv d blob set_prv_ptr converted_in_fwd =>
    d = .bwdf_bottom_data →
      blob = .bottom0 ∧ set_prv_ptr = false ∧ converted_in_fwd = some .fwd_bottom_data
  | _ => True

/-- The only source operand `Backward_cpu` passes to an execution is the result of the
request through `bwdf_bottom_data` that names `fwd_bottom_data` for reuse. -/
def SrcFromReuse (c : VendorCall) : Prop :=
  ∀ prim res p, c = .dnnExecute prim res → (Resource.dnnResourceSrc, p) ∈ res →
    p = .converted_prv .bwdf_bottom_data .bottom0 false (some .fwd_bottom_data)

/-- As `KeepsT`, and the value returned satisfies `R`. -/
structure KeepsV (T A : List Event → Prop) {α : Type} (R : α → Prop) (m : M α) : Prop where
  run : ∀ w, T w.trace → wp m (fun a w' => R a ∧ T w'.trace) (fun w' => A w'.trace) w

/-- A resource table without a source operand. -/
def NoSrc (res : List (Resource × Ptr)) : Prop :=
  ∀ x ∈ res, x.1 ≠ Resource.dnnResourceSrc

/-- When `fwd_bottom_data` needs a conversion, its buffer holds the converted bottom
blob. -/
def FwdHoldsBottom (m : PrvModel) (cache : PrvCache) : Prop :=
  m.needsConversion .fwd_bottom_data = true → cache .fwd_bottom_data = some .bottom0

/-! ## Vocabulary: reshaping -/

/-- Whether a call is a forward creation, with or without bias. -/
def isForwardCreate : VendorCall → Bool
  | .dnnGroupsConvolutionCreateForwardBias _ => true
  | .dnnGroupsConvolutionCreateForward _ => true
  | _ => false

/-- Whether a call is `dnnGroupsConvolutionCreateBackwardData`. -/
def isBackwardDataCreate : VendorCall → Bool
  | .dnnGroupsConvolutionCreateBackwardData _ => true
  | _ => false

/-- The bottom has the shape the layer cached: the test at the head of `Reshape`. -/
def ShapeUnchanged (l : Layer) (b : Blob) : Prop :=
  l.width_ = b.width ∧ l.height_ = b.height ∧ l.channels_ = b.channels ∧ l.num_ = b.num

instance (l : Layer) (b : Blob) : Decidable (ShapeUnchanged l b) := by
  unfold ShapeUnchanged; infer_instance

/-! ## Vocabulary: output shape -/

/-- The number `k` is the number of kernel positions along one axis: `k >= 1`, the
`k`-th window still fits inside the padded input and one more would not. -/
def CountsPositions (input pad kernel stride k : Int) : Prop :=
  1 ≤ k ∧ (k - 1) * stride + kernel ≤ input + 2 * pad ∧
  input + 2 * pad < k * stride + kernel

instance (input pad kernel stride k : Int) :
    Decidable (CountsPositions input pad kernel stride k) := by
  unfold CountsPositions; infer_instance

/-! ## Vocabulary: weight gradient -/

/-- The `dnnResourceDiffFilter` operands handed to executions of compute primitives, in
order: where a backward-filter primitive writes the weight gradient. -/
def diffFilterOperands (t : List Event) : List Ptr :=
  t.filterMap (fun e => match e.call with
    | .dnnExecute (.compute _) res => res.lookup .dnnResourceDiffFilter
    | _ => none)

/-- The resource tables of the executions of the `convert_from_int` conversion of
`bwdf2fwd_filter_diff`, in order. -/
def filterDiffConversions (t : List Event) : List (List (Resource × Ptr)) :=
  t.filterMap (fun e => match e.call with
    | .dnnExecute (.convert_from_int .bwdf2fwd_filter_diff) res => some res
    | _ => none)

/-- Where the weight gradient ends: the `dnnResourceTo` operand of the last extra
conversion when one was executed, and otherwise where the backward-filter primitive
wrote. -/
def weightGradientDestination (t : List Event) : Option Ptr :=
  match (filterDiffConversions t).getLast? with
  | some res => res.lookup .dnnResourceTo
  | none => (diffFilterOperands t).getLast?

/-- The private-diff registrations made on the weight blob, in order. -/
def weightDiffRegistrations (log : List HelperCall) : List (Ptr × DescName) :=
  log.filterMap (fun c => match c with
    | .set_prv_diff .blobs_0 p d _ => some (p, d)
    | _ => none)

/-! ## Concrete inputs -/

/-- A vendor library on which every call succeeds (build date after 20160701). -/
def exampleEnv : Env :=
  { mklBuild := 20160801, status := fun _ => 0, create_conversions := fun _ d => d }

/-- A vendor library whose every call fails with status 7. -/
def failingEnv : Env :=
  { mklBuild := 20160801, status := fun _ => 7, create_conversions := fun _ d => d }

/-- A constructed layer: 2 groups, 4 input channels, 6 outputs, bias, 3x3 kernel,
stride 1, pad 1. -/
def exampleLayer : Layer := construct 2 4 6 true (3, 3) (1, 1) (1, 1) (true, true)

/-- A bottom blob of shape 2 x 4 x 8 x 8. -/
def bottomA : Blob := { id := 0, num := 2, channels := 4, height := 8, width := 8 }

/-- The matching top blob, 2 x 6 x 8 x 8. -/
def topA : Blob := { id := 1, num := 2, channels := 6, height := 8, width := 8 }

/-- A bottom blob of shape 2 x 4 x 16 x 16. -/
def bottomB : Blob := { id := 0, num := 2, channels := 4, height := 16, width := 16 }

/-- The matching top blob, 2 x 6 x 16 x 16. -/
def topB : Blob := { id := 1, num := 2, channels := 6, height := 16, width := 16 }

/-- The example layer after `LayerSetUp` on `bottomA`. -/
def worldA : World := (LayerSetUp exampleEnv bottomA (World.start exampleLayer)).world

/-- The example layer after `LayerSetUp` on `bottomA` and `Reshape` on `bottomB`. -/
def worldB : World := (Reshape exampleEnv bottomB worldA).world

/-- A vendor on which every descriptor needs a conversion and all internal layouts are
equal. -/
def exampleModel : PrvModel :=
  { sameLayout := fun _ _ => true, needsConversion := fun _ => true }

/-- The set-up example layer in the case where every descriptor got conversion
primitives (user and internal layouts all differ). -/
def worldConv : World :=
  { worldA with
    layer := { worldA.layer with
      descs := fun d =>
        { worldA.layer.descs d with convert_to_int := true, convert_from_int := true } } }

/-- The example layer configured with stride 2 on both axes. -/
def stridedLayer : Layer := construct 2 4 6 true (3, 3) (2, 2) (1, 1) (true, true)

/-- The strided layer after `LayerSetUp` on the 16 x 16 blob `bottomB`. -/
def worldStrided : World :=
  (LayerSetUp exampleEnv bottomB (World.start stridedLayer)).world

/-- The example layer configured with a vertical padding of `2 ^ 30`. -/
def paddedLayer : Layer :=
  construct 2 4 6 true (3, 3) (1, 1) (1, 1073741824) (true, true)

/-- The padded layer after `LayerSetUp` on the 8 x 8 blob `bottomA`. -/
def worldPadded : World :=
  (LayerSetUp exampleEnv bottomA (World.start paddedLayer)).world

/-! ## Theorems -/

theorem bind_apply {α β : Type} (m : M α) (f : α → M β) (w : World) :
    (m >>= f) w = match m w with
      | .returned a w' => f a w'
      | .aborted w' => .aborted w' := rfl

theorem keeps_silent {T A : List Event → Prop} {α : Type} {m : M α} (h : Silent m) :
    KeepsT T A m := by
  refine ⟨fun w hT => ?_⟩
  obtain ⟨a, w', hm, ht⟩ := h.run w
  simp only [wp, hm, ht]
  exact hT

theorem keeps_bind {T A : List Event → Prop} {α β : Type} {m : M α} {f : α → M β}
    (hm : KeepsT T A m) (hf : ∀ a, KeepsT T A (f a)) : KeepsT T A (m >>= f) := by
  refine ⟨fun w hT => ?_⟩
  have h1 := hm.run w hT
  simp only [wp, bind_apply] at h1 ⊢
  cases hmw : m w with
  | returned a w' =>
    rw [hmw] at h1
    exact (hf a).run w' h1
  | aborted w' =>
    rw [hmw] at h1
    exact h1

theorem keeps_ite {T A : List Event → Prop} {α : Type} {c : Prop} [Decidable c]
    {m1 m2 : M α} (h1 : KeepsT T A m1) (h2 : KeepsT T A m2) :
    KeepsT T A (if c then m1 else m2) := by
  split
  · exact h1
  · exact h2

theorem keeps_checked_last {T A : List Event → Prop} {m : M Int} {C : VendorCall → Prop}
    (hm : StatusCall m C) (hC : Admits T A C) :
    KeepsT T A (m >>= fun status => CHECK_EQ status 0) := by
  refine ⟨fun w hT => ?_⟩
  obtain ⟨s, ev, w', hmw, ht, hs, hc⟩ := hm.run w
  simp only [wp, bind_apply, hmw, CHECK_EQ]
  by_cases h0 : s = 0
  · simp only [h0, if_true]
    rw [ht]
    exact (hC.run _ ev hT hc).1 (by rw [hs, h0])
  · simp only [h0, if_false]
    rw [ht]
    exact (hC.run _ ev hT hc).2 ⟨s, hs, h0⟩

theorem keeps_checked {T A : List Event → Prop} {β : Type} {m : M Int}
    {C : VendorCall → Prop} {k : M β}
    (hm : StatusCall m C) (hC : Admits T A C) (hk : KeepsT T A k) :
    KeepsT T A (m >>= fun status => CHECK_EQ status 0 >>= fun _ => k) := by
  refine ⟨fun w hT => ?_⟩
  obtain ⟨s, ev, w', hmw, ht, hs, hc⟩ := hm.run w
  simp only [wp, bind_apply, hmw, CHECK_EQ]
  by_cases h0 : s = 0
  · simp only [h0, if_true]
    exact hk.run w' (by rw [ht]; exact (hC.run _ ev hT hc).1 (by rw [hs, h0]))
  · simp only [h0, if_false]
    rw [ht]
    exact (hC.run _ ev hT hc).2 ⟨s, hs, h0⟩

theorem statusCall_createPrimitive (env : Env) (slot : PrimSlot) (c : VendorCall) :
    StatusCall (createPrimitive env slot c) (fun x => x = c) := by
  refine ⟨fun w => ?_⟩
  by_cases h : env.status w.trace.length = 0
  · exact ⟨_, _, _, by simp only [createPrimitive, h, if_true]; rfl, rfl, rfl, rfl⟩
  · exact ⟨_, _, _, by simp only [createPrimitive, h, if_false]; rfl, rfl, rfl, rfl⟩


theorem statusCall_dnnLayoutCreateFromPrimitive (env : Env) (d : DescName) (f : LayoutField)
    (prim : Option Handle) (r : Resource) :
    StatusCall (dnnLayoutCreateFromPrimitive env d f prim r)
      (fun x => x = .dnnLayoutCreateFromPrimitive d f prim r) := by
  refine ⟨fun w => ?_⟩
  by_cases h : env.status w.trace.length = 0
  · exact ⟨_, _, _, by simp only [dnnLayoutCreateFromPrimitive, h, if_true]; rfl, rfl, rfl, rfl⟩
  · exact ⟨_, _, _, by simp only [dnnLayoutCreateFromPrimitive, h, if_false]; rfl, rfl, rfl, rfl⟩

theorem statusCall_dnnLayoutCreate (env : Env) (d : DescName) (f : LayoutField)
    (dimension : Nat) (sizes strides : List Nat) :
    StatusCall (dnnLayoutCreate env d f dimension sizes strides)
      (fun x => x = .dnnLayoutCreate d f dimension sizes strides) := by
  refine ⟨fun w => ?_⟩
  by_cases h : env.status w.trace.length = 0
  · exact ⟨_, _, _, by simp only [dnnLayoutCreate, h, if_true]; rfl, rfl, rfl, rfl⟩
  · exact ⟨_, _, _, by simp only [dnnLayoutCreate, h, if_false]; rfl, rfl, rfl, rfl⟩

theorem statusCall_dnnExecute (env : Env) (prim : PrimRef) (res : List (Resource × Ptr)) :
    StatusCall (dnnExecute env prim res) (fun x => x = .dnnExecute prim res) :=
  ⟨fun _ => ⟨_, _, _, rfl, rfl, rfl, rfl⟩⟩

theorem statusCall_ForwardBias (env : Env) (a : ConvArgs) :
    StatusCall (dnnGroupsConvolutionCreateForwardBias env a)
      (fun x => x = .dnnGroupsConvolutionCreateForwardBias a) :=
  statusCall_createPrimitive env _ _

theorem statusCall_Forward (env : Env) (a : ConvArgs) :
    StatusCall (dnnGroupsConvolutionCreateForward env a)
      (fun x => x = .dnnGroupsConvolutionCreateForward a) :=
  statusCall_createPrimitive env _ _

theorem statusCall_BackwardData (env : Env) (a : ConvArgs) :
    StatusCall (dnnGroupsConvolutionCreateBackwardData env a)
      (fun x => x = .dnnGroupsConvolutionCreateBackwardData a) :=
  statusCall_createPrimitive env _ _

theorem statusCall_BackwardFilter (env : Env) (a : ConvArgs) :
    StatusCall (dnnGroupsConvolutionCreateBackwardFilter env a)
      (fun x => x = .dnnGroupsConvolutionCreateBackwardFilter a) :=
  statusCall_createPrimitive env _ _

theorem statusCall_BackwardBias (env : Env) (alg : Algorithm) (g dim : Nat) (ds : List Nat) :
    StatusCall (dnnGroupsConvolutionCreateBackwardBias env alg g dim ds)
      (fun x => x = .dnnGroupsConvolutionCreateBackwardBias alg g dim ds) :=
  statusCall_createPrimitive env _ _

theorem statusCall_ite {c : Prop} [Decidable c] {m1 m2 : M Int} {C1 C2 : VendorCall → Prop}
    (h1 : StatusCall m1 C1) (h2 : StatusCall m2 C2) :
    StatusCall (if c then m1 else m2) (fun x => C1 x ∨ C2 x) := by
  refine ⟨fun w => ?_⟩
  split
  · obtain ⟨s, ev, w', a, b, c, d⟩ := h1.run w
    exact ⟨s, ev, w', a, b, c, Or.inl d⟩
  · obtain ⟨s, ev, w', a, b, c, d⟩ := h2.run w
    exact ⟨s, ev, w', a, b, c, Or.inr d⟩

theorem silent_getLayer : Silent getLayer := ⟨fun _ => ⟨_, _, rfl, rfl⟩⟩

theorem silent_modifyLayer (f : Layer → Layer) : Silent (modifyLayer f) :=
  ⟨fun _ => ⟨_, _, rfl, rfl⟩⟩

theorem silent_compute_output_shape : Silent compute_output_shape :=
  ⟨fun _ => ⟨_, _, rfl, rfl⟩⟩

theorem silent_helper (c : HelperCall) : Silent (helper c) := ⟨fun _ => ⟨_, _, rfl, rfl⟩⟩

theorem silent_create_conversions (env : Env) (d : DescName) :
    Silent (create_conversions env d) := ⟨fun _ => ⟨_, _, rfl, rfl⟩⟩

theorem silent_get_converted_prv (d : DescName) (b : BlobRef) (s : Bool)
    (r : Option DescName) : Silent (get_converted_prv d b s r) := ⟨fun _ => ⟨_, _, rfl, rfl⟩⟩

theorem silent_pure {α : Type} (a : α) : Silent (pure a : M α) := ⟨fun _ => ⟨_, _, rfl, rfl⟩⟩

theorem admits_clean {Z : Event → Prop} (hZ : ∀ ev, ev.status = some 0 → Z ev)
    (t0 : List Event) (C : VendorCall → Prop) :
    Admits (Clean Z t0) (FailEnd Z t0) C := by
  refine ⟨fun t ev hT _ => ?_⟩
  obtain ⟨new, rfl, hnew⟩ := hT
  refine ⟨fun h0 => ⟨new ++ [ev], by simp, ?_⟩, fun hf => ⟨new, ev, by simp, hnew, hf⟩⟩
  intro e he
  rcases List.mem_append.1 he with h | h
  · exact hnew e h
  · rw [List.mem_singleton.1 h]; exact hZ ev h0

set_option maxRecDepth 8192 in
set_option maxHeartbeats 1000000 in
theorem keeps_LayerSetUp_clean {Z : Event → Prop} (hZ : ∀ ev, ev.status = some 0 → Z ev)
    (t0 : List Event) (env : Env) (bottom0 : Blob) :
    KeepsT (Clean Z t0) (FailEnd Z t0) (LayerSetUp env bottom0) := by
  unfold LayerSetUp
  repeat (first
    | exact admits_clean hZ _ _
    | exact keeps_silent (silent_pure _)
    | exact keeps_silent (silent_create_conversions _ _)
    | refine keeps_ite ?_ ?_
    | refine keeps_checked_last (statusCall_dnnLayoutCreate _ _ _ _ _ _) ?_
    | refine keeps_checked (statusCall_dnnLayoutCreate _ _ _ _ _ _) ?_ ?_
    | refine keeps_checked (statusCall_dnnLayoutCreateFromPrimitive _ _ _ _ _) ?_ ?_
    | refine keeps_checked (statusCall_ite (statusCall_ForwardBias _ _) (statusCall_Forward _ _)) ?_ ?_
    | refine keeps_checked (statusCall_BackwardData _ _) ?_ ?_
    | refine keeps_checked (statusCall_BackwardFilter _ _) ?_ ?_
    | refine keeps_checked (statusCall_BackwardBias _ _ _ _ _) ?_ ?_
    | refine keeps_bind (keeps_silent silent_getLayer) (fun _ => ?_)
    | refine keeps_bind (keeps_silent (silent_modifyLayer _)) (fun _ => ?_)
    | refine keeps_bind (keeps_silent silent_compute_output_shape) (fun _ => ?_)
    | refine keeps_bind (keeps_silent (silent_create_conversions _ _)) (fun _ => ?_)
    | refine keeps_bind (keeps_ite ?_ ?_) (fun _ => ?_))

theorem wp_bind_getLayer {β : Type} (f : Layer → M β)
    (Q : β → World → Prop) (A : World → Prop) (w : World) :
    wp (getLayer >>= f) Q A w = wp (f w.layer) Q A w := rfl

theorem wp_bind_modifyLayer {β : Type} (g : Layer → Layer) (f : Unit → M β)
    (Q : β → World → Prop) (A : World → Prop) (w : World) :
    wp (modifyLayer g >>= f) Q A w = wp (f ()) Q A { w with layer := g w.layer } := rfl

theorem wp_bind_CHECK_true {β : Type} (f : Unit → M β)
    (Q : β → World → Prop) (A : World → Prop) (w : World) :
    wp (CHECK true >>= f) Q A w = wp (f ()) Q A w := rfl

theorem clean_refl (Z : Event → Prop) (t : List Event) : Clean Z t t :=
  ⟨[], by simp, by simp⟩

set_option maxRecDepth 8192 in
set_option maxHeartbeats 1000000 in
theorem Forward_cpu_checked {Z : Event → Prop} (hZ : ∀ ev : Event, ev.status = some 0 → Z ev)
    (env : Env) (bottom0 top0 : Blob) (w : World)
    (h1 : bottomShapeCheck w.layer bottom0 = true) (h2 : topShapeCheck w.layer top0 = true) :
    wp (Forward_cpu env bottom0 top0) (fun _ w' => Clean Z w.trace w'.trace)
      (fun w' => FailEnd Z w.trace w'.trace) w := by
  unfold Forward_cpu
  rw [wp_bind_getLayer, h1, wp_bind_CHECK_true, h2, wp_bind_CHECK_true]
  refine KeepsT.run ?_ _ (clean_refl Z _)
  repeat' (first
    | exact admits_clean hZ _ _
    | exact keeps_silent (silent_pure _)
    | refine keeps_checked_last (statusCall_dnnExecute _ _ _) ?_
    | refine keeps_bind (keeps_silent (silent_get_converted_prv _ _ _ _)) (fun _ => ?_)
    | refine keeps_bind (keeps_silent (silent_helper _)) (fun _ => ?_)
    | refine keeps_bind (keeps_ite ?_ ?_) (fun _ => ?_))

set_option maxRecDepth 8192 in
set_option maxHeartbeats 1000000 in
theorem Backward_cpu_checked {Z : Event → Prop} (hZ : ∀ ev : Event, ev.status = some 0 → Z ev)
    (env : Env) (top0 : Blob) (p : Bool) (bottom0 : Blob) (w : World)
    (h1 : bottomShapeCheck w.layer bottom0 = true) (h2 : topShapeCheck w.layer top0 = true) :
    wp (Backward_cpu env top0 p bottom0) (fun _ w' => Clean Z w.trace w'.trace)
      (fun w' => FailEnd Z w.trace w'.trace) w := by
  unfold Backward_cpu
  rw [wp_bind_getLayer, h1, wp_bind_CHECK_true, h2, wp_bind_CHECK_true]
  refine KeepsT.run ?_ _ (clean_refl Z _)
  repeat' (first
    | exact admits_clean hZ _ _
    | exact keeps_silent (silent_pure _)
    | exact keeps_silent (silent_helper _)
    | refine keeps_ite ?_ ?_
    | refine keeps_checked_last (statusCall_dnnExecute _ _ _) ?_
    | refine keeps_checked (statusCall_dnnExecute _ _ _) ?_ ?_
    | refine keeps_bind (keeps_silent (silent_get_converted_prv _ _ _ _)) (fun _ => ?_)
    | refine keeps_bind (keeps_silent (silent_helper _)) (fun _ => ?_)
    | refine keeps_bind (keeps_ite ?_ ?_) (fun _ => ?_))

theorem Forward_cpu_rejected (env : Env) (bottom0 top0 : Blob) (w : World)
    (h : (bottomShapeCheck w.layer bottom0 && topShapeCheck w.layer top0) = false) :
    Forward_cpu env bottom0 top0 w = .aborted w := by
  unfold Forward_cpu
  cases h1 : bottomShapeCheck w.layer bottom0
  · simp [bind_apply, getLayer, CHECK, h1]
  · cases h2 : topShapeCheck w.layer top0
    · simp [bind_apply, getLayer, CHECK, h1, h2]
    · simp [h1, h2] at h

theorem Backward_cpu_rejected (env : Env) (top0 : Blob) (p : Bool) (bottom0 : Blob) (w : World)
    (h : (bottomShapeCheck w.layer bottom0 && topShapeCheck w.layer top0) = false) :
    Backward_cpu env top0 p bottom0 w = .aborted w := by
  unfold Backward_cpu
  cases h1 : bottomShapeCheck w.layer bottom0
  · simp [bind_apply, getLayer, CHECK, h1]
  · cases h2 : topShapeCheck w.layer top0
    · simp [bind_apply, getLayer, CHECK, h1, h2]
    · simp [h1, h2] at h

theorem issued_aborted_self {α : Type} (w : World) :
    issued w (Outcome.aborted w : Outcome α) = [] := by
  simp [issued, Outcome.world]

theorem outcome_cases {α : Type} {Z : Event → Prop} {m : M α} {w : World}
    (h : wp m (fun _ w' => Clean Z w.trace w'.trace) (fun w' => FailEnd Z w.trace w'.trace) w) :
    ((m w).isAborted = false ∧ ∀ e ∈ issued w (m w), Z e) ∨
    ((m w).isAborted = true ∧ ∃ pre e, issued w (m w) = pre ++ [e] ∧ (∀ x ∈ pre, Z x) ∧
      Failed e) := by
  unfold wp at h
  cases hm : m w with
  | returned a w' =>
    rw [hm] at h
    obtain ⟨new, hnew, hall⟩ := h
    left
    refine ⟨rfl, ?_⟩
    simp only [issued, Outcome.world, hnew, List.drop_left]
    exact hall
  | aborted w' =>
    rw [hm] at h
    obtain ⟨pre, e, heq, hpre, hf⟩ := h
    right
    refine ⟨rfl, pre, e, ?_, hpre, hf⟩
    simp only [issued, Outcome.world, heq, List.drop_left]

/-- C1. `LayerSetUp` returns normally exactly when every vendor call it issued returned
status 0; every call it issues is status-returning; and a nonzero status makes it abort. -/
theorem C1_LayerSetUp_returns_iff_all_status_zero (env : Env) (bottom0 : Blob) (w : World) :
    ((LayerSetUp env bottom0 w).isAborted = false ↔
        ∀ e ∈ issued w (LayerSetUp env bottom0 w), e.status = some 0) ∧
    (∀ e ∈ issued w (LayerSetUp env bottom0 w), ∃ s, e.status = some s) ∧
    ((∃ e ∈ issued w (LayerSetUp env bottom0 w), Failed e) →
        (LayerSetUp env bottom0 w).isAborted = true) := by
  have key := outcome_cases
    ((keeps_LayerSetUp_clean (Z := fun e => e.status = some 0) (fun _ h => h)
      w.trace env bottom0).run w (clean_refl _ _))
  rcases key with ⟨hret, hall⟩ | ⟨hab, pre, e, heq, hpre, s, hs, hs0⟩
  · refine ⟨⟨fun _ => hall, fun _ => hret⟩, fun e he => ⟨0, hall e he⟩, ?_⟩
    rintro ⟨e, he, s, hs, hs0⟩
    rw [hall e he] at hs
    exact absurd (Option.some.inj hs).symm hs0
  · refine ⟨⟨fun h => ?_, fun h => ?_⟩, ?_, fun _ => hab⟩
    · rw [hab] at h; exact absurd h (by decide)
    · have := h e (by rw [heq]; simp)
      rw [hs] at this
      exact absurd (Option.some.inj this) hs0
    · intro x hx
      rw [heq] at hx
      rcases List.mem_append.1 hx with h | h
      · exact ⟨0, hpre x h⟩
      · rw [List.mem_singleton.1 h]; exact ⟨s, hs⟩

theorem notFailed_of_zero (ev : Event) (h : ev.status = some 0) : ¬ Failed ev := by
  rintro ⟨s, hs, hs0⟩
  rw [h] at hs
  exact hs0 (Option.some.inj hs).symm

theorem failed_of_cases {α : Type} {w : World} {o : Outcome α}
    (h : (o.isAborted = false ∧ ∀ e ∈ issued w o, ¬ Failed e) ∨
      (o.isAborted = true ∧ ∃ pre e, issued w o = pre ++ [e] ∧ (∀ x ∈ pre, ¬ Failed x) ∧
        Failed e))
    (hab : o.isAborted = true) : ∃ e ∈ issued w o, Failed e := by
  rcases h with ⟨hret, _⟩ | ⟨_, pre, e, heq, _, hf⟩
  · rw [hret] at hab; exact absurd hab (by decide)
  · exact ⟨e, by rw [heq]; simp, hf⟩

/-- C2, counterexample. `Forward_cpu` on a set-up layer, given blobs of another shape,
aborts although it made no vendor call at all, so none returned a nonzero status. -/
theorem C2_counterexample_abort_without_failed_call :
    (Forward_cpu exampleEnv bottomB topB worldA).isAborted = true ∧
    issued worldA (Forward_cpu exampleEnv bottomB topB worldA) = [] ∧
    ¬ ∃ e ∈ issued worldA (Forward_cpu exampleEnv bottomB topB worldA), Failed e := by
  have h : issued worldA (Forward_cpu exampleEnv bottomB topB worldA) = [] := by decide
  refine ⟨by decide, h, ?_⟩
  rw [h]
  simp

/-- C2, amended. If `Forward_cpu` or `Backward_cpu` aborts, then either one of the two
shape checks failed, and then no vendor call was made, or some vendor call made during
the invocation returned a nonzero status. -/
theorem C2_abort_is_shape_check_or_failed_call (env : Env) (w : World)
    (bottom0 top0 : Blob) (propagate_down0 : Bool) :
    ((Forward_cpu env bottom0 top0 w).isAborted = true →
      ((bottomShapeCheck w.layer bottom0 && topShapeCheck w.layer top0) = false ∧
        issued w (Forward_cpu env bottom0 top0 w) = []) ∨
      ∃ e ∈ issued w (Forward_cpu env bottom0 top0 w), Failed e) ∧
    ((Backward_cpu env top0 propagate_down0 bottom0 w).isAborted = true →
      ((bottomShapeCheck w.layer bottom0 && topShapeCheck w.layer top0) = false ∧
        issued w (Backward_cpu env top0 propagate_down0 bottom0 w) = []) ∨
      ∃ e ∈ issued w (Backward_cpu env top0 propagate_down0 bottom0 w), Failed e) := by
  cases h : (bottomShapeCheck w.layer bottom0 && topShapeCheck w.layer top0)
  · refine ⟨fun _ => Or.inl ⟨rfl, ?_⟩, fun _ => Or.inl ⟨rfl, ?_⟩⟩
    · rw [Forward_cpu_rejected env bottom0 top0 w h, issued_aborted_self]
    · rw [Backward_cpu_rejected env top0 propagate_down0 bottom0 w h, issued_aborted_self]
  · simp only [Bool.and_eq_true] at h
    refine ⟨fun hab => Or.inr ?_, fun hab => Or.inr ?_⟩
    · exact failed_of_cases (outcome_cases
        (Forward_cpu_checked notFailed_of_zero env bottom0 top0 w h.1 h.2)) hab
    · exact failed_of_cases (outcome_cases
        (Backward_cpu_checked notFailed_of_zero env top0 propagate_down0 bottom0 w h.1 h.2)) hab

/-- C2, witness. On matching blobs and a vendor library whose execution call fails,
`Forward_cpu` aborts and the abort is accounted for. -/
theorem C2_witness_failed_execute :
    ((bottomShapeCheck worldA.layer bottomA && topShapeCheck worldA.layer topA) = false ∧
        issued worldA (Forward_cpu failingEnv bottomA topA worldA) = []) ∨
      ∃ e ∈ issued worldA (Forward_cpu failingEnv bottomA topA worldA), Failed e :=
  (C2_abort_is_shape_check_or_failed_call failingEnv worldA bottomA topA true).1 (by decide)

theorem pure_apply {α : Type} (a : α) (w : World) : (pure a : M α) w = .returned a w := rfl

theorem ite_apply_world {α : Type} (c : Prop) [Decidable c] (m1 m2 : M α) (w : World) :
    (if c then m1 else m2) w = if c then m1 w else m2 w := by
  split <;> rfl

/-- Once the shape checks pass, `Forward_cpu` issues exactly one vendor call: the
execution of the forward primitive. -/
theorem Forward_cpu_issues (env : Env) (bottom0 top0 : Blob) (w : World)
    (h1 : bottomShapeCheck w.layer bottom0 = true) (h2 : topShapeCheck w.layer top0 = true) :
    ∃ res s, issued w (Forward_cpu env bottom0 top0 w) =
      [{ call := .dnnExecute (.compute w.layer.convolutionFwd) res, status := some s,
         handle := none }] := by
  unfold Forward_cpu
  cases hb : w.layer.bias_term_ <;> cases hc : (w.layer.descs .fwd_top_data).convert_from_int <;>
    by_cases hs : env.status w.trace.length = 0 <;>
    simp [bind_apply, pure_apply, getLayer, CHECK, CHECK_EQ, h1, h2, hb, hc, hs,
      get_converted_prv, helper, dnnExecute, issued, Outcome.world]

theorem toSizeT_inj {x y : Int} (hx : IsInt32 x) (hy : IsInt32 y) :
    toSizeT x = toSizeT y ↔ x = y := by
  unfold IsInt32 at hx hy
  unfold toSizeT SIZE_MOD
  constructor
  · intro h
    have h' : (x % 18446744073709551616).toNat = (y % 18446744073709551616).toNat := by
      simpa using h
    omega
  · intro h; rw [h]

theorem toSizeT_of_nonneg {x : Int} (h0 : 0 ≤ x) (hx : IsInt32 x) :
    toSizeT x = x.toNat := by
  unfold IsInt32 at hx
  unfold toSizeT SIZE_MOD
  have : (x % 18446744073709551616).toNat = x.toNat := by omega
  simpa using this

theorem toNat_lt_of_int32 {x : Int} (hx : IsInt32 x) : x.toNat < 2 ^ 31 := by
  unfold IsInt32 at hx
  omega

/-- The product `(c / g) * g` computed in `size_t` gives back `c` when `g` divides `c`. -/
theorem smul_div_cancel {c g : Int} (hg : 1 ≤ g) (hc : 0 ≤ c) (hdvd : g ∣ c)
    (hgr : IsInt32 g) (hcr : IsInt32 c) :
    smul (toSizeT c / toSizeT g) (toSizeT g) = toSizeT c := by
  rw [toSizeT_of_nonneg hc hcr, toSizeT_of_nonneg (by omega) hgr]
  have hdn : g.toNat ∣ c.toNat := by
    have h1 : ((g.toNat : Int)) ∣ ((c.toNat : Int)) := by
      rw [Int.toNat_of_nonneg hc, Int.toNat_of_nonneg (by omega)]
      exact hdvd
    exact Int.natCast_dvd_natCast.1 h1
  unfold smul SIZE_MOD
  rw [Nat.div_mul_cancel hdn]
  have := toNat_lt_of_int32 hcr
  exact Nat.mod_eq_of_lt (by omega)

theorem shape_checks_iff (l : Layer) (bottom0 top0 : Blob)
    (hg : 1 ≤ l.group_) (hgc : l.group_ ∣ l.channels_) (hgo : l.group_ ∣ l.num_output_)
    (hnn : l.NonNegDims) (hl : l.InRange) (hb : bottom0.InRange) (ht : top0.InRange) :
    (bottomShapeCheck l bottom0 && topShapeCheck l top0) = true ↔ ShapesMatch l bottom0 top0 := by
  obtain ⟨n0, n1, n2, n3, n4, n5, n6⟩ := hnn
  obtain ⟨r0, r1, r2, r3, r4, r5, r6, r7⟩ := hl
  obtain ⟨b0, b1, b2, b3⟩ := hb
  obtain ⟨t0, t1, t2, t3⟩ := ht
  simp only [bottomShapeCheck, topShapeCheck, ShapesMatch, Bool.and_eq_true, beq_iff_eq,
    smul_div_cancel hg n2 hgc r0 r1, smul_div_cancel hg n6 hgo r0 r2,
    toSizeT_inj b3 r4, toSizeT_inj b2 r5, toSizeT_inj b1 r1, toSizeT_inj b0 r3,
    toSizeT_inj t3 r6, toSizeT_inj t2 r7, toSizeT_inj t1 r2, toSizeT_inj t0 r3,
    Prod.mk.injEq]
  tauto

/-- C10. For a layer with `group_ >= 1` dividing `channels_` and `num_output_` and
non-negative cached dimensions, the two shape checks of `Forward_cpu` and `Backward_cpu`
pass exactly when the bottom blob has the cached input shape and the top blob the cached
output shape; otherwise both functions abort before any vendor call is made; and when the
shapes match `Forward_cpu` goes on to its vendor call and `Backward_cpu` can only abort on
a failed vendor call. -/
theorem C10_shape_checks_reject_exactly_mismatch (env : Env) (w : World)
    (bottom0 top0 : Blob) (propagate_down0 : Bool)
    (hg : 1 ≤ w.layer.group_) (hgc : w.layer.group_ ∣ w.layer.channels_)
    (hgo : w.layer.group_ ∣ w.layer.num_output_) (hnn : w.layer.NonNegDims)
    (hl : w.layer.InRange) (hb : bottom0.InRange) (ht : top0.InRange) :
    ((bottomShapeCheck w.layer bottom0 && topShapeCheck w.layer top0) = true ↔
      ShapesMatch w.layer bottom0 top0) ∧
    (¬ ShapesMatch w.layer bottom0 top0 →
      (Forward_cpu env bottom0 top0 w).isAborted = true ∧
      issued w (Forward_cpu env bottom0 top0 w) = [] ∧
      (Backward_cpu env top0 propagate_down0 bottom0 w).isAborted = true ∧
      issued w (Backward_cpu env top0 propagate_down0 bottom0 w) = []) ∧
    (ShapesMatch w.layer bottom0 top0 →
      issued w (Forward_cpu env bottom0 top0 w) ≠ [] ∧
      ((Backward_cpu env top0 propagate_down0 bottom0 w).isAborted = true →
        ∃ e ∈ issued w (Backward_cpu env top0 propagate_down0 bottom0 w), Failed e)) := by
  have hiff := shape_checks_iff w.layer bottom0 top0 hg hgc hgo hnn hl hb ht
  refine ⟨hiff, fun hne => ?_, fun hm => ?_⟩
  · have hf : (bottomShapeCheck w.layer bottom0 && topShapeCheck w.layer top0) = false := by
      cases h : (bottomShapeCheck w.layer bottom0 && topShapeCheck w.layer top0)
      · rfl
      · exact absurd (hiff.1 h) hne
    rw [Forward_cpu_rejected env bottom0 top0 w hf,
      Backward_cpu_rejected env top0 propagate_down0 bottom0 w hf, issued_aborted_self]
    exact ⟨rfl, rfl, rfl, rfl⟩
  · have hc := hiff.2 hm
    simp only [Bool.and_eq_true] at hc
    refine ⟨?_, fun hab => ?_⟩
    · obtain ⟨res, s, hi⟩ := Forward_cpu_issues env bottom0 top0 w hc.1 hc.2
      rw [hi]
      simp
    · exact failed_of_cases (outcome_cases
        (Backward_cpu_checked notFailed_of_zero env top0 propagate_down0 bottom0 w hc.1 hc.2))
        hab

/-- C10, witness. The set-up example layer rejects the blobs of another shape without any
vendor call. -/
theorem C10_witness_mismatch_rejected :
    (Forward_cpu exampleEnv bottomB topB worldA).isAborted = true ∧
    issued worldA (Forward_cpu exampleEnv bottomB topB worldA) = [] ∧
    (Backward_cpu exampleEnv topB true bottomB worldA).isAborted = true ∧
    issued worldA (Backward_cpu exampleEnv topB true bottomB worldA) = [] :=
  (C10_shape_checks_reject_exactly_mismatch exampleEnv worldA bottomB topB true
    (by decide) (by decide) (by decide) (by decide) (by decide) (by decide) (by decide)).2.1
    (by decide)

theorem admits_emits {PC : VendorCall → Prop} {C : VendorCall → Prop} (t0 : List Event)
    (h : ∀ c, C c → PC c) :
    Admits (Clean (fun e => PC e.call) t0) (Clean (fun e => PC e.call) t0) C := by
  refine ⟨fun t ev hT hc => ?_⟩
  obtain ⟨new, rfl, hnew⟩ := hT
  have key : Clean (fun e => PC e.call) t0 (t0 ++ new ++ [ev]) := by
    refine ⟨new ++ [ev], by simp, ?_⟩
    intro e he
    rcases List.mem_append.1 he with h1 | h1
    · exact hnew e h1
    · rw [List.mem_singleton.1 h1]; exact h _ hc
  exact ⟨fun _ => key, fun _ => key⟩


set_option maxRecDepth 8192 in
set_option maxHeartbeats 1000000 in
theorem LayerSetUp_layout_calls (env : Env) (bottom0 : Blob) (w : World) :
    wp (LayerSetUp env bottom0)
      (fun _ w' => Clean (fun e => LayoutForm env w.layer bottom0 e.call) w.trace w'.trace)
      (fun w' => Clean (fun e => LayoutForm env w.layer bottom0 e.call) w.trace w'.trace) w := by
  have hT : Clean (fun e => LayoutForm env w.layer bottom0 e.call) w.trace w.trace :=
    ⟨[], by simp, by simp⟩
  unfold LayerSetUp compute_output_shape
  rw [wp_bind_modifyLayer, wp_bind_modifyLayer, wp_bind_modifyLayer, wp_bind_modifyLayer,
    wp_bind_getLayer]
  refine KeepsT.run ?_ _ hT
  dsimp only
  repeat' (first
    | exact keeps_silent (silent_pure _)
    | exact keeps_silent (silent_create_conversions _ _)
    | refine keeps_ite ?_ ?_
    | refine keeps_checked_last (statusCall_dnnLayoutCreate _ _ _ _ _ _) (admits_emits _ ?_)
    | refine keeps_checked (statusCall_dnnLayoutCreate _ _ _ _ _ _) (admits_emits _ ?_) ?_
    | refine keeps_checked (statusCall_dnnLayoutCreateFromPrimitive _ _ _ _ _) (admits_emits _ ?_) ?_
    | refine keeps_checked (statusCall_ite (statusCall_ForwardBias _ _) (statusCall_Forward _ _)) (admits_emits _ ?_) ?_
    | refine keeps_checked (statusCall_BackwardData _ _) (admits_emits _ ?_) ?_
    | refine keeps_checked (statusCall_BackwardFilter _ _) (admits_emits _ ?_) ?_
    | refine keeps_checked (statusCall_BackwardBias _ _ _ _ _) (admits_emits _ ?_) ?_
    | refine keeps_bind (keeps_silent silent_getLayer) (fun _ => ?_)
    | refine keeps_bind (keeps_silent (silent_create_conversions _ _)) (fun _ => ?_)
    | refine keeps_bind (keeps_ite ?_ ?_) (fun _ => ?_))
  all_goals
    intro c hc d f dim sizes strides h
    first
    | (rcases hc with hc | hc <;> rw [hc] at h <;> exact VendorCall.noConfusion h)
    | (rw [hc] at h; exact VendorCall.noConfusion h)
    | (rw [hc] at h
       injection h with h1 h2 h3 h4 h5
       subst h1 h2 h3 h4 h5
       simp [getMKLBuildDate, outDim])

theorem LayerSetUp_layout_form (env : Env) (bottom0 : Blob) (w : World) :
    ∀ e ∈ issued w (LayerSetUp env bottom0 w), LayoutForm env w.layer bottom0 e.call := by
  have h := LayerSetUp_layout_calls env bottom0 w
  unfold wp at h
  cases hm : LayerSetUp env bottom0 w with
  | returned a w' =>
    rw [hm] at h
    obtain ⟨new, hnew, hall⟩ := h
    simp only [issued, Outcome.world, hnew, List.drop_left]
    exact hall
  | aborted w' =>
    rw [hm] at h
    obtain ⟨new, hnew, hall⟩ := h
    simp only [issued, Outcome.world, hnew, List.drop_left]
    exact hall

theorem smul_of_lt {a b : Nat} (h : a * b < SIZE_MOD) : smul a b = a * b :=
  Nat.mod_eq_of_lt h

/-- C7. Every user layout that `LayerSetUp` creates (bottom, top, filter, and also the
one-dimensional bias layouts) is dense, when the group count `g = max(group_, 1)` divides
`channels_` and `num_output_` and the stride products do not wrap. -/
theorem C7_user_layouts_are_dense (env : Env) (bottom0 : Blob) (w : World)
    (hgc : toSizeT (max w.layer.group_ 1) ∣ toSizeT w.layer.channels_)
    (hgo : toSizeT (max w.layer.group_ 1) ∣ toSizeT w.layer.num_output_)
    (hov : NoOverflow w.layer bottom0) :
    ∀ e ∈ issued w (LayerSetUp env bottom0 w), ∀ d f dim sizes strides,
      e.call = .dnnLayoutCreate d f dim sizes strides → Dense dim sizes strides := by
  intro e he d f dim sizes strides hc
  obtain ⟨h1, h2, h3, h4, h5, h6, h7⟩ := hov
  have hform := LayerSetUp_layout_form env bottom0 w e he d f dim sizes strides hc
  simp only at hform
  rcases hform.2 with ⟨_, hd, hs, hst⟩ | ⟨_, hd, hs, hst⟩ | ⟨_, hd, hs, hst⟩ | ⟨_, hd, hs, hst⟩
  · subst hd hs hst
    rw [smul_of_lt h1, smul_of_lt h2]
    refine ⟨by simp, by simp, by simp, fun i hi => ?_⟩
    have hi3 : i < 3 := by omega
    interval_cases i <;> simp
  · subst hd hs hst
    rw [smul_of_lt h3, smul_of_lt h4]
    refine ⟨by simp, by simp, by simp, fun i hi => ?_⟩
    have hi3 : i < 3 := by omega
    interval_cases i <;> simp
  · subst hs hst
    rw [smul_of_lt h5, smul_of_lt h6, smul_of_lt h7]
    have e3 : toSizeT w.layer.kernel_shape_.1 * toSizeT w.layer.kernel_shape_.2 *
          toSizeT w.layer.channels_ / toSizeT (max w.layer.group_ 1) =
        toSizeT w.layer.kernel_shape_.1 * toSizeT w.layer.kernel_shape_.2 *
          (toSizeT w.layer.channels_ / toSizeT (max w.layer.group_ 1)) :=
      Nat.mul_div_assoc _ hgc
    refine ⟨?_, ?_, by simp, fun i hi => ?_⟩
    · rw [hd]; split <;> [simp; (split <;> simp)]
    · rw [hd]; split <;> [simp; (split <;> simp)]
    · have hi5 : i + 1 < 5 := by
        rw [hd] at hi
        split at hi
        · omega
        · split at hi <;> omega
      have h4case : i = 3 → ¬ (env.mklBuild < 20160701) ∧ toSizeT (max w.layer.group_ 1) ≠ 1 := by
        intro hi3
        rw [hd, hi3] at hi
        split at hi
        · omega
        · rename_i hb
          split at hi
          · rename_i hg1
            exact ⟨hb, hg1⟩
          · omega
      have hi4 : i < 4 := by omega
      interval_cases i
      · simp
      · simp
      · simp only [List.getD_cons_succ, List.getD_cons_zero]
        exact e3
      · obtain ⟨hb, _⟩ := h4case rfl
        simp only [List.getD_cons_succ, List.getD_cons_zero, if_neg hb]
        exact Nat.mul_div_assoc _ hgo
  · subst hd hs hst
    refine ⟨by simp, by simp, by simp, fun i hi => ?_⟩
    omega


/-- C7, witness. The filter layout of the example layer (2 groups, 5 dimensions). -/
theorem C7_witness_filter_layout : Dense 5 [3, 3, 2, 3, 2] [1, 3, 9, 18, 54] :=
  C7_user_layouts_are_dense exampleEnv bottomA (World.start exampleLayer)
    (by decide) (by decide) (by decide)
    { call := .dnnLayoutCreate .fwd_filter_data .layout_usr 5 [3, 3, 2, 3, 2] [1, 3, 9, 18, 54],
      status := some 0, handle := none }
    (by decide) _ _ _ _ _ rfl

/-- C8. For `group_ >= 1` dividing `num_output_`, every filter layout that `LayerSetUp`
creates has 5 dimensions with sizes `{kw, kh, ic/g, oc/g, g}` exactly when the build date
is at least 20160701 and `g != 1`, and otherwise 4 dimensions with sizes
`{kw, kh, ic/g, oc}`; in both cases the product of the sizes is `kw * kh * (ic/g) * oc`. -/
theorem C8_filter_layout_dimension_and_sizes (env : Env) (bottom0 : Blob) (w : World)
    (hg : 1 ≤ w.layer.group_)
    (hgo : toSizeT w.layer.group_ ∣ toSizeT w.layer.num_output_) :
    ∀ e ∈ issued w (LayerSetUp env bottom0 w), ∀ d f dim sizes strides,
      e.call = .dnnLayoutCreate d f dim sizes strides →
      (d = .fwd_filter_data ∨ d = .bwdd_filter_data ∨ d = .bwdf_filter_diff) →
      ((20160701 ≤ getMKLBuildDate env ∧ toSizeT w.layer.group_ ≠ 1) →
        dim = 5 ∧
        sizes.take dim =
          [toSizeT w.layer.kernel_shape_.1, toSizeT w.layer.kernel_shape_.2,
           toSizeT w.layer.channels_ / toSizeT w.layer.group_,
           toSizeT w.layer.num_output_ / toSizeT w.layer.group_, toSizeT w.layer.group_]) ∧
      (¬ (20160701 ≤ getMKLBuildDate env ∧ toSizeT w.layer.group_ ≠ 1) →
        dim = 4 ∧
        sizes.take dim =
          [toSizeT w.layer.kernel_shape_.1, toSizeT w.layer.kernel_shape_.2,
           toSizeT w.layer.channels_ / toSizeT w.layer.group_, toSizeT w.layer.num_output_]) ∧
      (sizes.take dim).prod =
        toSizeT w.layer.kernel_shape_.1 * toSizeT w.layer.kernel_shape_.2 *
          (toSizeT w.layer.channels_ / toSizeT w.layer.group_) * toSizeT w.layer.num_output_ := by
  intro e he d f dim sizes strides hc hd
  have hform := LayerSetUp_layout_form env bottom0 w e he d f dim sizes strides hc
  simp only [max_eq_left hg] at hform
  have hfilter : dim = (if env.mklBuild < 20160701 then 4
        else 4 + (if toSizeT w.layer.group_ ≠ 1 then 1 else 0)) ∧
      sizes = [toSizeT w.layer.kernel_shape_.1, toSizeT w.layer.kernel_shape_.2,
        toSizeT w.layer.channels_ / toSizeT w.layer.group_,
        toSizeT w.layer.num_output_ /
          (if env.mklBuild < 20160701 then 1 else toSizeT w.layer.group_),
        if env.mklBuild < 20160701 then 1 else toSizeT w.layer.group_] := by
    rcases hform.2 with ⟨hd', _⟩ | ⟨hd', _⟩ | ⟨_, h1, h2, _⟩ | ⟨hd', _⟩
    · rcases hd with h | h | h <;> rcases hd' with h' | h' | h' <;> rw [h] at h' <;>
        exact absurd h' (by decide)
    · rcases hd with h | h | h <;> rcases hd' with h' | h' | h' | h' <;> rw [h] at h' <;>
        exact absurd h' (by decide)
    · exact ⟨h1, h2⟩
    · rcases hd with h | h | h <;> rcases hd' with h' | h' <;> rw [h] at h' <;>
        exact absurd h' (by decide)
  obtain ⟨hdim, hsizes⟩ := hfilter
  unfold getMKLBuildDate
  by_cases hb : env.mklBuild < 20160701
  · have hnb : ¬ (20160701 ≤ env.mklBuild) := by omega
    simp only [hb, if_true] at hdim hsizes
    subst hdim hsizes
    refine ⟨fun h => absurd h.1 hnb, fun _ => ⟨rfl, by simp⟩, by simp [Nat.mul_assoc]⟩
  · have hnb : 20160701 ≤ env.mklBuild := by omega
    simp only [hb, if_false] at hdim hsizes
    by_cases hg1 : toSizeT w.layer.group_ = 1
    · simp only [hg1, ne_eq, not_true_eq_false, if_false, Nat.add_zero] at hdim hsizes
      subst hdim hsizes
      refine ⟨fun h => absurd hg1 h.2, fun _ => ⟨rfl, by simp [hg1]⟩, by simp [hg1, Nat.mul_assoc]⟩
    · simp only [ne_eq, hg1, not_false_eq_true, if_true] at hdim hsizes
      subst hdim hsizes
      refine ⟨fun _ => ⟨rfl, by simp⟩, fun h => absurd ⟨hnb, hg1⟩ h, ?_⟩
      simp only [List.take, List.prod_cons, List.prod_nil, Nat.mul_one]
      rw [Nat.div_mul_cancel hgo]
      simp [Nat.mul_assoc]

/-- C8, witness. The forward filter layout of the example layer has 5 dimensions. -/
theorem C8_witness_five_dimensions :
    (5 : Nat) = 5 ∧
    ([3, 3, 2, 3, 2] : List Nat).take 5 =
      [toSizeT exampleLayer.kernel_shape_.1, toSizeT exampleLayer.kernel_shape_.2,
       toSizeT exampleLayer.channels_ / toSizeT exampleLayer.group_,
       toSizeT exampleLayer.num_output_ / toSizeT exampleLayer.group_,
       toSizeT exampleLayer.group_] :=
  (C8_filter_layout_dimension_and_sizes exampleEnv bottomA (World.start exampleLayer)
    (by decide) (by decide)
    { call := .dnnLayoutCreate .fwd_filter_data .layout_usr 5 [3, 3, 2, 3, 2] [1, 3, 9, 18, 54],
      status := some 0, handle := none }
    (by decide) _ _ _ _ _ rfl (Or.inl rfl)).1 (by decide)

theorem createPrimitive_ok {env : Env} (hs : ∀ k, env.status k = 0) (slot : PrimSlot)
    (c : VendorCall) (w : World) :
    createPrimitive env slot c w = .returned 0
      { w with
        layer := w.layer.setPrim slot (some w.fresh)
        trace := w.trace ++ [{ call := c, status := some 0, handle := some w.fresh }]
        fresh := w.fresh + 1 } := by
  simp [createPrimitive, hs]

theorem dnnLayoutCreateFromPrimitive_ok {env : Env} (hs : ∀ k, env.status k = 0)
    (d : DescName) (f : LayoutField) (prim : Option Handle) (r : Resource) (w : World) :
    dnnLayoutCreateFromPrimitive env d f prim r w = .returned 0
      { w with
        layer := w.layer.setLayout d f (.fromPrimitive prim r)
        trace := w.trace ++ [{ call := .dnnLayoutCreateFromPrimitive d f prim r,
                               status := some 0, handle := none }] } := by
  simp [dnnLayoutCreateFromPrimitive, hs]

theorem dnnLayoutCreate_ok {env : Env} (hs : ∀ k, env.status k = 0)
    (d : DescName) (f : LayoutField) (dim : Nat) (sizes strides : List Nat) (w : World) :
    dnnLayoutCreate env d f dim sizes strides w = .returned 0
      { w with
        layer := w.layer.setLayout d f (.user dim sizes strides)
        trace := w.trace ++ [{ call := .dnnLayoutCreate d f dim sizes strides,
                               status := some 0, handle := none }] } := by
  simp [dnnLayoutCreate, hs]

set_option maxRecDepth 8192 in
set_option maxHeartbeats 2000000 in
theorem LayerSetUp_res {env : Env} (hs : ∀ k, env.status k = 0) (b : Blob) (w : World) :
    ∃ w', LayerSetUp env b w = .returned () w' ∧
      w'.res.bias = w.res.bias ∧
      w'.res.fwd = some w.fresh ∧
      w'.res.bwdData = some (w.fresh + 1) ∧
      w'.res.bwdFilter = some (w.fresh + 2) ∧
      (w.res.bias = true → w'.res.bwdBias = some (w.fresh + 3)) ∧
      w'.res.created = w.res.created ++
        (if w.res.bias then [w.fresh, w.fresh + 1, w.fresh + 2, w.fresh + 3]
         else [w.fresh, w.fresh + 1, w.fresh + 2]) ∧
      w'.res.deleted = w.res.deleted ∧
      w'.res.biasCreates.length = w.res.biasCreates.length + (if w.res.bias then 1 else 0) ∧
      w'.res.fresh = (if w.res.bias then w.fresh + 4 else w.fresh + 3) := by
  cases hb : w.layer.bias_term_ <;>
  simp [LayerSetUp, bind_apply, pure_apply, createPrimitive_ok hs, dnnLayoutCreate_ok hs,
    dnnLayoutCreateFromPrimitive_ok hs, CHECK_EQ, getLayer, modifyLayer, compute_output_shape,
    create_conversions, dnnGroupsConvolutionCreateForward, dnnGroupsConvolutionCreateForwardBias,
    dnnGroupsConvolutionCreateBackwardData, dnnGroupsConvolutionCreateBackwardFilter,
    dnnGroupsConvolutionCreateBackwardBias, hb, World.res, Layer.setPrim, Layer.setLayout,
    createdHandles, deletedArgs, List.filterMap_append, List.filter_append,
    isBackwardBiasCreate]

theorem Reshape_same {env : Env} (b : Blob) (w : World)
    (h : w.layer.width_ = b.width ∧ w.layer.height_ = b.height ∧
      w.layer.channels_ = b.channels ∧ w.layer.num_ = b.num) :
    Reshape env b w = .returned () w := by
  simp [Reshape, bind_apply, pure_apply, getLayer, h]

theorem Reshape_res {env : Env} (hs : ∀ k, env.status k = 0) (b : Blob) (w : World)
    (h : ¬ (w.layer.width_ = b.width ∧ w.layer.height_ = b.height ∧
      w.layer.channels_ = b.channels ∧ w.layer.num_ = b.num)) :
    ∃ w', Reshape env b w = .returned () w' ∧
      w'.res.bias = w.res.bias ∧
      w'.res.fwd = some w.fresh ∧
      w'.res.bwdData = some (w.fresh + 1) ∧
      w'.res.bwdFilter = w.res.bwdFilter ∧
      w'.res.bwdBias = w.res.bwdBias ∧
      w'.res.created = w.res.created ++ [w.fresh, w.fresh + 1] ∧
      w'.res.deleted = w.res.deleted ++ [w.res.fwd, w.res.bwdData] ∧
      w'.res.biasCreates = w.res.biasCreates ∧
      w'.res.fresh = w.fresh + 2 := by
  cases hb : w.layer.bias_term_ <;>
  simp [Reshape, bind_apply, pure_apply, createPrimitive_ok hs, CHECK_EQ, getLayer,
    modifyLayer, compute_output_shape, dnnDelete, h,
    dnnGroupsConvolutionCreateForward, dnnGroupsConvolutionCreateForwardBias,
    dnnGroupsConvolutionCreateBackwardData, hb, World.res, Layer.setPrim,
    createdHandles, deletedArgs, List.filterMap_append, List.filter_append,
    isBackwardBiasCreate]

theorem destroy_res (w : World) :
    ∃ w', destroy w = .returned () w' ∧
      w'.res.created = w.res.created ∧
      w'.res.deleted = w.res.deleted ++
        (if w.res.bias then [w.res.fwd, w.res.bwdData, w.res.bwdFilter, w.res.bwdBias]
         else [w.res.fwd, w.res.bwdData, w.res.bwdFilter]) ∧
      w'.res.biasCreates = w.res.biasCreates := by
  cases hb : w.layer.bias_term_ <;>
  simp [destroy, bind_apply, pure_apply, getLayer, dnnDelete, hb, World.res,
    createdHandles, deletedArgs, List.filterMap_append, List.filter_append,
    isBackwardBiasCreate]

theorem balanced_setup {env : Env} (hs : ∀ k, env.status k = 0) (b : Blob) (l : Layer) :
    ∃ w', LayerSetUp env b (World.start l) = .returned () w' ∧ Balanced w'.res ∧
      w'.res.bias = l.bias_term_ := by
  obtain ⟨w', hrun, hbias, hf, hd, hfl, hbb, hc, hdel, hbc, hfr⟩ :=
    LayerSetUp_res hs b (World.start l)
  refine ⟨w', hrun, ?_, hbias⟩
  have hb0 : (World.start l).res.bias = l.bias_term_ := rfl
  have hc0 : (World.start l).res.created = [] := rfl
  have hd0 : (World.start l).res.deleted = [] := rfl
  have hbc0 : (World.start l).res.biasCreates = [] := rfl
  have hf0 : (World.start l).fresh = 0 := rfl
  rw [hb0] at hbb hc hbc hfr
  rw [hc0, hf0] at hc
  rw [hd0] at hdel
  rw [hbc0] at hbc
  rw [hf0] at hf hd hfl hbb hfr
  rw [hb0] at hbias
  refine ⟨0, 1, 2, hf, hd, hfl, ?_, ?_, ?_, ?_⟩
  · cases hb : l.bias_term_
    · refine ⟨[some 0, some 1, some 2], ?_, ?_⟩
      · rw [hbias, hb]; simp
      · rw [hdel, hc, hb]; simp
    · refine ⟨[some 0, some 1, some 2, some 3], ?_, ?_⟩
      · rw [hbias, hb]; simpa using hbb hb
      · rw [hdel, hc, hb]; simp
  · rw [hc]; cases l.bias_term_ <;> simp
  · rw [hc, hfr]; cases l.bias_term_ <;> simp
  · rw [hbc, hbias]; simp

theorem balanced_reshape {env : Env} (hs : ∀ k, env.status k = 0) (b : Blob) (w : World)
    (hw : Balanced w.res) :
    ∃ w', Reshape env b w = .returned () w' ∧ Balanced w'.res ∧ w'.res.bias = w.res.bias := by
  by_cases h : w.layer.width_ = b.width ∧ w.layer.height_ = b.height ∧
      w.layer.channels_ = b.channels ∧ w.layer.num_ = b.num
  · exact ⟨w, Reshape_same b w h, hw, rfl⟩
  · obtain ⟨w', hrun, hbias, hf, hd, hfl, hbb, hc, hdel, hbc, hfr⟩ := Reshape_res hs b w h
    refine ⟨w', hrun, ?_, hbias⟩
    obtain ⟨a0, b0, c0, ha, hb, hc0, ⟨held, hheld, hperm⟩, hnd, hlt, hcount⟩ := hw
    refine ⟨w.fresh, w.fresh + 1, c0, hf, hd, by rw [hfl, hc0], ?_, ?_, ?_, ?_⟩
    · rw [hdel, hc, ha, hb, hbias, hbb]
      cases hbs : w.res.bias
      · rw [hbs] at hheld
        simp only [Bool.false_eq_true, if_false] at hheld ⊢
        subst hheld
        refine ⟨_, rfl, ?_⟩
        rw [List.perm_iff_count] at hperm ⊢
        intro x
        have := hperm x
        simp only [List.count_append, List.count_cons, List.count_nil, List.map_append,
          List.map_cons, List.map_nil] at this ⊢
        omega
      · rw [hbs] at hheld
        simp only [if_true] at hheld ⊢
        obtain ⟨d0, hd0, hheld⟩ := hheld
        subst hheld
        refine ⟨_, ⟨d0, hd0, rfl⟩, ?_⟩
        rw [List.perm_iff_count] at hperm ⊢
        intro x
        have := hperm x
        simp only [List.count_append, List.count_cons, List.count_nil, List.map_append,
          List.map_cons, List.map_nil] at this ⊢
        omega
    · rw [hc]
      refine List.Nodup.append hnd (by simp) ?_
      intro x hx hx'
      have hx2 : @LT.lt Nat _ x w.fresh := hlt x hx
      have hx3 : @Eq Nat x w.fresh ∨ @Eq Nat x (w.fresh + 1) := by simpa using hx'
      omega
    · intro x hx
      rw [hc] at hx
      rw [hfr]
      rcases List.mem_append.1 hx with h1 | h1
      · have hx2 : @LT.lt Nat _ x w.fresh := hlt x h1
        show @LT.lt Nat _ x (w.fresh + 2)
        omega
      · have hx3 : @Eq Nat x w.fresh ∨ @Eq Nat x (w.fresh + 1) := by simpa using h1
        show @LT.lt Nat _ x (w.fresh + 2)
        omega
    · rw [hbc, hbias]; exact hcount

theorem balanced_reshapeAll {env : Env} (hs : ∀ k, env.status k = 0) (bs : List Blob) :
    ∀ w : World, Balanced w.res →
      ∃ w', reshapeAll env bs w = .returned () w' ∧ Balanced w'.res ∧
        w'.res.bias = w.res.bias := by
  induction bs with
  | nil => exact fun w hw => ⟨w, rfl, hw, rfl⟩
  | cons b bs ih =>
    intro w hw
    obtain ⟨w1, h1, hb1, hbias1⟩ := balanced_reshape hs b w hw
    obtain ⟨w2, h2, hb2, hbias2⟩ := ih w1 hb1
    refine ⟨w2, ?_, hb2, by rw [hbias2, hbias1]⟩
    simp only [reshapeAll, bind_apply, h1]
    exact h2

theorem lifecycle_accounts {env : Env} (hs : ∀ k, env.status k = 0) (l : Layer)
    (b0 : Blob) (bs : List Blob) :
    ∃ w', lifecycle env b0 bs (World.start l) = .returned () w' ∧
      (deletedArgs w'.trace).Perm ((createdHandles w'.trace).map some) ∧
      (createdHandles w'.trace).Nodup ∧
      (w'.trace.filter (fun e => isBackwardBiasCreate e.call)).length =
        (if l.bias_term_ then 1 else 0) := by
  obtain ⟨w1, h1, hb1, hbias1⟩ := balanced_setup hs b0 l
  obtain ⟨w2, h2, hb2, hbias2⟩ := balanced_reshapeAll hs bs w1 hb1
  obtain ⟨w3, h3, hc3, hd3, hbc3⟩ := destroy_res w2
  refine ⟨w3, ?_, ?_, ?_, ?_⟩
  · simp only [lifecycle, bind_apply, h1, h2]
    exact h3
  · obtain ⟨a0, b0', c0, ha, hb, hc0, ⟨held, hheld, hperm⟩, hnd, hlt, hcount⟩ := hb2
    have e1 : deletedArgs w3.trace = w3.res.deleted := rfl
    have e2 : createdHandles w3.trace = w3.res.created := rfl
    rw [e1, e2, hd3, hc3, ha, hb, hc0]
    cases hbs : w2.res.bias
    · rw [hbs] at hheld
      simp only [Bool.false_eq_true, if_false] at hheld ⊢
      subst hheld
      exact hperm
    · rw [hbs] at hheld
      simp only [if_true] at hheld ⊢
      obtain ⟨d0, hd0, hheld⟩ := hheld
      subst hheld
      rw [hd0]
      exact hperm
  · have e2 : createdHandles w3.trace = w3.res.created := rfl
    rw [e2, hc3]
    exact hb2.choose_spec.choose_spec.choose_spec.2.2.2.2.1
  · have e3 : w3.trace.filter (fun e => isBackwardBiasCreate e.call) = w3.res.biasCreates := rfl
    rw [e3, hbc3, hb2.choose_spec.choose_spec.choose_spec.2.2.2.2.2.2, hbias2, hbias1]


/-- C4. On a vendor library where every call succeeds, a lifetime made of `LayerSetUp`,
any sequence of `Reshape` calls and the destructor returns normally; every handle returned
by a creation call is passed to `dnnDelete` exactly once; no handle is deleted twice and
nothing but created handles is deleted; and a backward-bias primitive is created (once)
exactly when `bias_term_` is set. -/
theorem C4_handles_created_and_deleted_in_balance (env : Env) (hs : ∀ k, env.status k = 0)
    (l : Layer) (bottom0 : Blob) (bottoms : List Blob) :
    (lifecycle env bottom0 bottoms (World.start l)).isAborted = false ∧
    (∀ h ∈ createdHandles (lifecycle env bottom0 bottoms (World.start l)).world.trace,
      (deletedArgs (lifecycle env bottom0 bottoms (World.start l)).world.trace).count
        (some h) = 1) ∧
    (deletedArgs (lifecycle env bottom0 bottoms (World.start l)).world.trace).Nodup ∧
    (∀ p ∈ deletedArgs (lifecycle env bottom0 bottoms (World.start l)).world.trace,
      ∃ h ∈ createdHandles (lifecycle env bottom0 bottoms (World.start l)).world.trace,
        p = some h) ∧
    (l.bias_term_ = false →
      ∀ e ∈ (lifecycle env bottom0 bottoms (World.start l)).world.trace,
        isBackwardBiasCreate e.call = false) ∧
    (l.bias_term_ = true →
      ((lifecycle env bottom0 bottoms (World.start l)).world.trace.filter
        (fun e => isBackwardBiasCreate e.call)).length = 1) := by
  obtain ⟨w', hrun, hperm, hnd, hbc⟩ := lifecycle_accounts hs l bottom0 bottoms
  rw [hrun]
  simp only [Outcome.world, Outcome.isAborted]
  have hinj : Function.Injective (some : Handle → Option Handle) := fun _ _ h => Option.some.inj h
  refine ⟨trivial, fun h hh => ?_, ?_, fun p hp => ?_, fun hb => ?_, fun hb => ?_⟩
  · have h1 : List.count (some h) (deletedArgs w'.trace) =
        List.countP (· == some h) ((createdHandles w'.trace).map some) :=
      hperm.countP_eq _
    have h2 : List.countP (· == some h) ((createdHandles w'.trace).map some) =
        List.count h (createdHandles w'.trace) := by
      rw [List.countP_map]
      rfl
    exact h1.trans (h2.trans (List.count_eq_one_of_mem hnd hh))
  · exact hperm.nodup_iff.2 (hnd.map hinj)
  · obtain ⟨h, hh, rfl⟩ := List.mem_map.1 (hperm.mem_iff.1 hp)
    exact ⟨h, hh, rfl⟩
  · rw [hb] at hbc
    simp only [Bool.false_eq_true, if_false, List.length_eq_zero] at hbc
    intro e he
    by_contra hne
    have : e ∈ w'.trace.filter (fun e => isBackwardBiasCreate e.call) :=
      List.mem_filter.2 ⟨he, by simpa using hne⟩
    rw [hbc] at this
    exact absurd this (List.not_mem_nil _)
  · rw [hb] at hbc
    simpa using hbc

/-- C4, witness. The example layer, set up on `bottomA`, reshaped to `bottomB` and back,
then destroyed: five pairs of forward and backward-data handles and no double delete. -/
theorem C4_witness_example_lifetime :
    (lifecycle exampleEnv bottomA [bottomB, bottomA] (World.start exampleLayer)).isAborted
      = false ∧
    (deletedArgs
      (lifecycle exampleEnv bottomA [bottomB, bottomA] (World.start exampleLayer)).world.trace
      ).Nodup :=
  ⟨(C4_handles_created_and_deleted_in_balance exampleEnv (fun _ => rfl) exampleLayer bottomA
      [bottomB, bottomA]).1,
   (C4_handles_created_and_deleted_in_balance exampleEnv (fun _ => rfl) exampleLayer bottomA
      [bottomB, bottomA]).2.2.1⟩

set_option maxRecDepth 8192 in
set_option maxHeartbeats 2000000 in
theorem LayerSetUp_success {env : Env} (hs : ∀ k, env.status k = 0) (b : Blob) (w : World) :
    ∃ w', LayerSetUp env b w = .returned () w' ∧
      w'.layer.CachedFromConfig ∧
      w'.layer.group_ = w.layer.group_ ∧ w'.layer.channels_ = w.layer.channels_ ∧
      w'.layer.num_output_ = w.layer.num_output_ ∧
      w'.layer.bias_term_ = w.layer.bias_term_ ∧
      w'.layer.kernel_shape_ = w.layer.kernel_shape_ ∧ w'.layer.stride_ = w.layer.stride_ ∧
      w'.layer.pad_ = w.layer.pad_ ∧
      w'.layer.width_ = b.width ∧ w'.layer.height_ = b.height ∧ w'.layer.num_ = b.num ∧
      convCreateCalls (issued w (LayerSetUp env b w)) =
        [forwardCreateCall env w.layer b,
         .dnnGroupsConvolutionCreateBackwardData (createArgs env w.layer b)] := by
  cases hb : w.layer.bias_term_ <;>
  simp [LayerSetUp, bind_apply, pure_apply, createPrimitive_ok hs, dnnLayoutCreate_ok hs,
    dnnLayoutCreateFromPrimitive_ok hs, CHECK_EQ, getLayer, modifyLayer, compute_output_shape,
    create_conversions, dnnGroupsConvolutionCreateForward, dnnGroupsConvolutionCreateForwardBias,
    dnnGroupsConvolutionCreateBackwardData, dnnGroupsConvolutionCreateBackwardFilter,
    dnnGroupsConvolutionCreateBackwardBias, hb, Layer.setPrim, Layer.setLayout,
    convCreateCalls, List.filterMap_append, issued, Outcome.world, Layer.CachedFromConfig,
    forwardCreateCall, createArgs, getMKLBuildDate]

theorem Reshape_success {env : Env} (hs : ∀ k, env.status k = 0) (b : Blob) (w : World)
    (hg : 1 ≤ w.layer.group_) (hc : w.layer.CachedFromConfig)
    (h : ¬ (w.layer.width_ = b.width ∧ w.layer.height_ = b.height ∧
      w.layer.channels_ = b.channels ∧ w.layer.num_ = b.num)) :
    convCreateCalls (issued w (Reshape env b w)) =
      [forwardCreateCall env w.layer b,
       .dnnGroupsConvolutionCreateBackwardData (createArgs env w.layer b)] := by
  obtain ⟨c1, c2, c3, c4, c5, c6⟩ := hc
  cases hb : w.layer.bias_term_ <;>
  simp [Reshape, bind_apply, pure_apply, createPrimitive_ok hs, CHECK_EQ, getLayer,
    modifyLayer, compute_output_shape, dnnDelete, h,
    dnnGroupsConvolutionCreateForward, dnnGroupsConvolutionCreateForwardBias,
    dnnGroupsConvolutionCreateBackwardData, hb, Layer.setPrim,
    convCreateCalls, List.filterMap_append, issued, Outcome.world,
    forwardCreateCall, createArgs, getMKLBuildDate, c1, c2, c3, c4, c5, c6, max_eq_left hg]


/-- C6. For `group_ >= 1`, when `Reshape` is given a bottom whose shape differs from the
one the layer was set up with, the forward (bias or non-bias variant) and backward-data
creation calls it issues are, argument for argument, the calls `LayerSetUp` issues for the
same configuration and that bottom (every vendor call succeeding). -/
theorem C6_Reshape_recreates_as_LayerSetUp (env : Env) (hs : ∀ k, env.status k = 0)
    (w0 : World) (bottomOld bottomNew : Blob) (hg : 1 ≤ w0.layer.group_)
    (hne : ¬ (bottomOld.width = bottomNew.width ∧ bottomOld.height = bottomNew.height ∧
      w0.layer.channels_ = bottomNew.channels ∧ bottomOld.num = bottomNew.num)) :
    convCreateCalls
        (issued (LayerSetUp env bottomOld w0).world
          (Reshape env bottomNew (LayerSetUp env bottomOld w0).world)) =
      convCreateCalls (issued w0 (LayerSetUp env bottomNew w0)) ∧
    convCreateCalls (issued w0 (LayerSetUp env bottomNew w0)) =
      [forwardCreateCall env w0.layer bottomNew,
       .dnnGroupsConvolutionCreateBackwardData (createArgs env w0.layer bottomNew)] := by
  obtain ⟨w1, hrun, hc, e1, e2, e3, e4, e5, e6, e7, e8, e9, e10, _⟩ :=
    LayerSetUp_success hs bottomOld w0
  obtain ⟨_, _, _, _, _, _, _, _, _, _, _, _, _, hnew⟩ := LayerSetUp_success hs bottomNew w0
  refine ⟨?_, hnew⟩
  rw [hnew, hrun]
  simp only [Outcome.world]
  have hne' : ¬ (w1.layer.width_ = bottomNew.width ∧ w1.layer.height_ = bottomNew.height ∧
      w1.layer.channels_ = bottomNew.channels ∧ w1.layer.num_ = bottomNew.num) := by
    rw [e8, e9, e10, e2]; exact hne
  rw [Reshape_success hs bottomNew w1 (by rw [e1]; exact hg) hc hne']
  simp only [forwardCreateCall, createArgs, e1, e2, e3, e4, e5, e6, e7]

/-- C6, witness. The example layer, set up on `bottomA`, reshaped to `bottomB`. -/
theorem C6_witness_example_reshape :
    convCreateCalls (issued worldA (Reshape exampleEnv bottomB worldA)) =
      convCreateCalls
        (issued (World.start exampleLayer)
          (LayerSetUp exampleEnv bottomB (World.start exampleLayer))) :=
  (C6_Reshape_recreates_as_LayerSetUp exampleEnv (fun _ => rfl) (World.start exampleLayer)
    bottomA bottomB (by decide) (by decide)).1

/-- C5, the failing input evaluated. The example layer is set up on `bottomA`
(2 x 4 x 8 x 8) and reshaped to `bottomB` (2 x 4 x 16 x 16), every vendor call succeeding.
The layer then holds, as backward-filter and backward-bias primitives, the handles created
by `LayerSetUp` for the 8 x 8 shape; its cached shape is 16 x 16; and `Backward_cpu`
accepts the 16 x 16 blobs and executes both stale primitives. -/
theorem C5_reshape_leaves_stale_backward_primitives :
    (Reshape exampleEnv bottomB worldA).isAborted = false ∧
    worldB.layer.convolutionBwdFilter = some 2 ∧
    worldB.layer.convolutionBwdBias = some 3 ∧
    (worldB.trace.filter (fun e => e.handle == some 2)).map (fun e => e.call) =
      [.dnnGroupsConvolutionCreateBackwardFilter (createArgs exampleEnv exampleLayer bottomA)] ∧
    (worldB.trace.filter (fun e => e.handle == some 3)).map (fun e => e.call) =
      [.dnnGroupsConvolutionCreateBackwardBias .dnnAlgorithmConvolutionDirect 2 4 [8, 8, 6, 2]] ∧
    (createArgs exampleEnv exampleLayer bottomA).srcSize = [8, 8, 4, 2] ∧
    (createArgs exampleEnv exampleLayer bottomA).dstSize = [8, 8, 6, 2] ∧
    [toSizeT worldB.layer.width_, toSizeT worldB.layer.height_,
      toSizeT worldB.layer.channels_, toSizeT worldB.layer.num_] = [16, 16, 4, 2] ∧
    [toSizeT worldB.layer.width_out_, toSizeT worldB.layer.height_out_,
      toSizeT worldB.layer.num_output_, toSizeT worldB.layer.num_] = [16, 16, 6, 2] ∧
    (Backward_cpu exampleEnv topB true bottomB worldB).isAborted = false ∧
    (issued worldB (Backward_cpu exampleEnv topB true bottomB worldB)).map
        (fun e => match e.call with
          | .dnnExecute p _ => some p
          | _ => none) =
      [some (.compute (some 5)), some (.compute (some 2)), some (.compute (some 3))] := by
  refine ⟨by decide, by decide, by decide, by decide, by decide, by decide, by decide,
    by decide, by decide, by decide, by decide⟩

theorem logsOnly_quiet {P : HelperCall → Prop} {α : Type} {m : M α}
    (h : ∀ w, (m w).world.log = w.log) : LogsOnly P m :=
  ⟨fun w => ⟨[], by rw [h w]; simp, by simp⟩⟩

theorem logsOnly_bind {P : HelperCall → Prop} {α β : Type} {m : M α} {f : α → M β}
    (hm : LogsOnly P m) (hf : ∀ a, LogsOnly P (f a)) : LogsOnly P (m >>= f) := by
  refine ⟨fun w => ?_⟩
  obtain ⟨new, hnew, hall⟩ := hm.run w
  rw [bind_apply]
  cases hmw : m w with
  | returned a w' =>
    rw [hmw] at hnew
    obtain ⟨new2, hnew2, hall2⟩ := (hf a).run w'
    refine ⟨new ++ new2, ?_, ?_⟩
    · show ((f a) w').world.log = _
      rw [hnew2]
      simp only [Outcome.world] at hnew
      rw [hnew, List.append_assoc]
    · intro c hc
      rcases List.mem_append.1 hc with h | h
      · exact hall c h
      · exact hall2 c h
  | aborted w' =>
    rw [hmw] at hnew
    exact ⟨new, hnew, hall⟩

theorem logsOnly_ite {P : HelperCall → Prop} {α : Type} {c : Prop} [Decidable c]
    {m1 m2 : M α} (h1 : LogsOnly P m1) (h2 : LogsOnly P m2) :
    LogsOnly P (if c then m1 else m2) := by
  split
  · exact h1
  · exact h2

theorem logsOnly_pure {P : HelperCall → Prop} {α : Type} (a : α) :
    LogsOnly P (pure a : M α) := logsOnly_quiet (fun _ => rfl)

theorem logsOnly_getLayer {P : HelperCall → Prop} : LogsOnly P getLayer :=
  logsOnly_quiet (fun _ => rfl)

theorem logsOnly_CHECK {P : HelperCall → Prop} (c : Bool) : LogsOnly P (CHECK c) :=
  logsOnly_quiet (fun w => by unfold CHECK; split <;> rfl)

theorem logsOnly_CHECK_EQ {P : HelperCall → Prop} (a b : Int) : LogsOnly P (CHECK_EQ a b) :=
  logsOnly_quiet (fun w => by unfold CHECK_EQ; split <;> rfl)

theorem logsOnly_dnnExecute {P : HelperCall → Prop} (env : Env) (prim : PrimRef)
    (res : List (Resource × Ptr)) : LogsOnly P (dnnExecute env prim res) :=
  logsOnly_quiet (fun _ => rfl)

theorem logsOnly_helper {P : HelperCall → Prop} {c : HelperCall} (h : P c) :
    LogsOnly P (helper c) :=
  ⟨fun w => ⟨[c], rfl, by simpa using h⟩⟩

theorem logsOnly_get_converted_prv {P : HelperCall → Prop} {d : DescName} {b : BlobRef}
    {s : Bool} {r : Option DescName} (h : P (.get_converted_prv d b s r)) :
    LogsOnly P (get_converted_prv d b s r) :=
  ⟨fun w => ⟨[.get_converted_prv d b s r], rfl, by simpa using h⟩⟩

theorem logged_of_logsOnly {P : HelperCall → Prop} {α : Type} {m : M α} (h : LogsOnly P m)
    (w : World) : ∀ c ∈ logged w (m w), P c := by
  obtain ⟨new, hnew, hall⟩ := h.run w
  simp only [logged, hnew, List.drop_left]
  exact hall

set_option maxRecDepth 8192 in
set_option maxHeartbeats 1000000 in
theorem Backward_cpu_logs {P : HelperCall → Prop}
    (hg : ∀ d b s r, d ≠ .bwdf_bottom_data → d ≠ .fwd_bottom_data →
      P (.get_converted_prv d b s r))
    (ht : P (.get_converted_prv .bwdf_bottom_data .bottom0 false (some .fwd_bottom_data)))
    (hd : ∀ b p d s, P (.set_prv_diff b p d s))
    (env : Env) (top0 : Blob) (p : Bool) (bottom0 : Blob) :
    LogsOnly P (Backward_cpu env top0 p bottom0) := by
  unfold Backward_cpu
  repeat' (first
    | exact logsOnly_pure _
    | exact logsOnly_CHECK_EQ _ _
    | exact logsOnly_helper (hd _ _ _ _)
    | exact logsOnly_get_converted_prv ht
    | exact logsOnly_get_converted_prv (hg _ _ _ _ (by decide) (by decide))
    | exact logsOnly_getLayer
    | exact logsOnly_CHECK _
    | exact logsOnly_dnnExecute _ _ _
    | refine logsOnly_ite ?_ ?_
    | refine logsOnly_bind ?_ (fun _ => ?_))


theorem run_bind_getLayer {β : Type} (f : Layer → M β) (w : World) :
    (getLayer >>= f) w = f w.layer w := rfl

theorem run_bind_CHECK_true {β : Type} (f : Unit → M β) (w : World) :
    (CHECK true >>= f) w = f () w := rfl

theorem run_bind_get_converted_prv {β : Type} (d : DescName) (b : BlobRef) (s : Bool)
    (r : Option DescName) (f : Ptr → M β) (w : World) :
    (get_converted_prv d b s r >>= f) w =
      f (.converted_prv d b s r) { w with log := w.log ++ [.get_converted_prv d b s r] } := rfl

theorem logged_after {P : HelperCall → Prop} {α : Type} {m : M α} (h : LogsOnly P m)
    (w0 w : World) (pre : List HelperCall) (hw : w.log = w0.log ++ pre) :
    ∃ rest, logged w0 (m w) = pre ++ rest ∧ ∀ c ∈ rest, P c := by
  obtain ⟨new, hnew, hall⟩ := h.run w
  refine ⟨new, ?_, hall⟩
  simp only [logged, hnew, hw, List.append_assoc, List.drop_left]

theorem logged_aborted_self {α : Type} (w : World) :
    logged w (Outcome.aborted w : Outcome α) = [] := by
  simp [logged, Outcome.world]

set_option maxRecDepth 8192 in
set_option maxHeartbeats 1000000 in
/-- Once the shape checks pass, the first helper call of `Forward_cpu` is the request for
the bottom blob through `fwd_bottom_data`, and the later ones leave its buffer alone. -/
theorem Forward_cpu_logs (env : Env) (bottom0 top0 : Blob) (w : World)
    (h1 : bottomShapeCheck w.layer bottom0 = true) (h2 : topShapeCheck w.layer top0 = true) :
    ∃ rest, logged w (Forward_cpu env bottom0 top0 w) =
        [.get_converted_prv .fwd_bottom_data .bottom0 false none] ++ rest ∧
      ∀ c ∈ rest, KeepsFwdBottom c ∧ NamesFwdForReuse c := by
  unfold Forward_cpu
  rw [run_bind_getLayer, h1, run_bind_CHECK_true, h2, run_bind_CHECK_true,
    run_bind_get_converted_prv]
  refine logged_after ?_ w _ _ rfl
  repeat' (first
    | exact logsOnly_pure _
    | exact logsOnly_CHECK_EQ _ _
    | exact logsOnly_helper (by simp [KeepsFwdBottom, NamesFwdForReuse])
    | exact logsOnly_get_converted_prv (by simp [KeepsFwdBottom, NamesFwdForReuse])
    | exact logsOnly_dnnExecute _ _ _
    | refine logsOnly_ite ?_ ?_
    | refine logsOnly_bind ?_ (fun _ => ?_))

/-- `Forward_cpu` leaves the layer object as it found it. -/
theorem Forward_cpu_layer (env : Env) (bottom0 top0 : Blob) (w : World) :
    (Forward_cpu env bottom0 top0 w).world.layer = w.layer := by
  unfold Forward_cpu
  cases h1 : bottomShapeCheck w.layer bottom0 <;> cases h2 : topShapeCheck w.layer top0 <;>
    cases hb : w.layer.bias_term_ <;>
    cases hc : (w.layer.descs .fwd_top_data).convert_from_int <;>
    by_cases hs : env.status w.trace.length = 0 <;>
    simp [bind_apply, pure_apply, getLayer, CHECK, CHECK_EQ, h1, h2, hb, hc, hs,
      get_converted_prv, helper, dnnExecute, Outcome.world]

theorem keepsV_pure {T A : List Event → Prop} {α : Type} {R : α → Prop} {a : α}
    (h : R a) : KeepsV T A R (pure a : M α) :=
  ⟨fun _ hT => ⟨h, hT⟩⟩

theorem keepsV_ite {T A : List Event → Prop} {α : Type} {R : α → Prop} {c : Prop}
    [Decidable c] {m1 m2 : M α} (h1 : KeepsV T A R m1) (h2 : KeepsV T A R m2) :
    KeepsV T A R (if c then m1 else m2) := by
  split
  · exact h1
  · exact h2

theorem keepsV_bind_silent {T A : List Event → Prop} {α β : Type} {R : β → Prop}
    {m : M α} {f : α → M β} (hm : Silent m) (hf : ∀ a, KeepsV T A R (f a)) :
    KeepsV T A R (m >>= f) := by
  refine ⟨fun w hT => ?_⟩
  obtain ⟨a, w', hmw, ht⟩ := hm.run w
  simp only [wp, bind_apply, hmw]
  exact (hf a).run w' (by rw [ht]; exact hT)

theorem keeps_bindV {T A : List Event → Prop} {α β : Type} {R : α → Prop}
    {m : M α} {f : α → M β} (hm : KeepsV T A R m) (hf : ∀ a, R a → KeepsT T A (f a)) :
    KeepsT T A (m >>= f) := by
  refine ⟨fun w hT => ?_⟩
  have h1 := hm.run w hT
  simp only [wp, bind_apply] at h1 ⊢
  cases hmw : m w with
  | returned a w' =>
    rw [hmw] at h1
    exact (hf a h1.1).run w' h1.2
  | aborted w' =>
    rw [hmw] at h1
    exact h1

theorem keeps_bind_get_converted_prv {T A : List Event → Prop} {β : Type}
    {d : DescName} {b : BlobRef} {s : Bool} {r : Option DescName} {f : Ptr → M β}
    (hf : KeepsT T A (f (.converted_prv d b s r))) :
    KeepsT T A (get_converted_prv d b s r >>= f) :=
  ⟨fun _ hT => hf.run _ hT⟩

theorem noSrc_append {res : List (Resource × Ptr)} {r : Resource} {q : Ptr}
    (h : NoSrc res) (hr : r ≠ .dnnResourceSrc) : NoSrc (res ++ [(r, q)]) := by
  intro x hx
  rcases List.mem_append.1 hx with h1 | h1
  · exact h x h1
  · rw [List.mem_singleton.1 h1]; exact hr

set_option maxRecDepth 8192 in
set_option maxHeartbeats 1000000 in
theorem Backward_cpu_src_operand (env : Env) (top0 : Blob) (p : Bool) (bottom0 : Blob)
    (w : World) :
    ∀ e ∈ issued w (Backward_cpu env top0 p bottom0 w), SrcFromReuse e.call := by
  cases h : (bottomShapeCheck w.layer bottom0 && topShapeCheck w.layer top0)
  · rw [Backward_cpu_rejected env top0 p bottom0 w h, issued_aborted_self]
    simp
  · simp only [Bool.and_eq_true] at h
    have key : wp (Backward_cpu env top0 p bottom0)
        (fun _ w' => Clean (fun e => SrcFromReuse e.call) w.trace w'.trace)
        (fun w' => Clean (fun e => SrcFromReuse e.call) w.trace w'.trace) w := by
      unfold Backward_cpu
      rw [wp_bind_getLayer, h.1, wp_bind_CHECK_true, h.2, wp_bind_CHECK_true]
      refine KeepsT.run ?_ _ (clean_refl _ _)
      repeat' (first
        | exact keeps_silent (silent_pure _)
        | exact keeps_silent (silent_helper _)
        | refine keeps_ite ?_ ?_
        | refine keeps_checked_last (statusCall_dnnExecute _ _ _) (admits_emits _ ?_)
        | refine keeps_checked (statusCall_dnnExecute _ _ _) (admits_emits _ ?_) ?_
        | refine keeps_bind_get_converted_prv ?_
        | refine keeps_bind (keeps_silent (silent_helper _)) (fun _ => ?_)
        | refine keeps_bindV (R := NoSrc)
            (keepsV_ite (keepsV_bind_silent (silent_helper _) (fun _ => keepsV_pure ?_))
              (keepsV_pure ?_)) (fun _ hR => ?_)
        | refine keeps_bind (keeps_ite ?_ ?_) (fun _ => ?_))
      all_goals first
        | (intro x hx
           simp only [List.cons_append, List.nil_append, List.mem_cons, List.not_mem_nil,
             or_false] at hx
           rcases hx with hx | hx | hx <;> rw [hx] <;> decide)
        | (intro x hx
           simp only [List.cons_append, List.nil_append, List.mem_cons, List.not_mem_nil,
             or_false] at hx
           rcases hx with hx | hx <;> rw [hx] <;> decide)
        | (intro c hc prim res q hq hmem
           rw [hc] at hq
           injection hq with hq1 hq2
           subst hq2
           exact absurd rfl (hR _ hmem))
        | (intro c hc prim res q hq hmem
           rw [hc] at hq
           injection hq with hq1 hq2
           subst hq2
           revert hmem
           split <;> [skip; split] <;> simp)
        | (intro c hc prim res q hq hmem
           rw [hc] at hq
           injection hq with hq1 hq2
           subst hq2
           revert hmem
           split <;> simp)
    unfold wp at key
    cases hm : Backward_cpu env top0 p bottom0 w with
    | returned a w' =>
      rw [hm] at key
      obtain ⟨new, hnew, hall⟩ := key
      simp only [issued, Outcome.world, hnew, List.drop_left]
      exact hall
    | aborted w' =>
      rw [hm] at key
      obtain ⟨new, hnew, hall⟩ := key
      simp only [issued, Outcome.world, hnew, List.drop_left]
      exact hall


theorem serve_keeps_fwd (m : PrvModel) (cache : PrvCache) (c : HelperCall)
    (hc : KeepsFwdBottom c) (h : FwdHoldsBottom m cache) :
    FwdHoldsBottom m (m.serve cache c).1 := by
  intro hn
  have h0 := h hn
  cases c with
  | get_converted_prv d blob s r =>
    simp only [KeepsFwdBottom] at hc
    have hne : ¬ (DescName.fwd_bottom_data = d) := fun e => hc e.symm
    simp only [PrvModel.serve]
    split
    · split
      · exact h0
      · cases r with
        | none => simp only [hne, if_false]; exact h0
        | some f =>
          simp only
          split
          · exact h0
          · simp only [hne, if_false]; exact h0
    · exact h0
  | set_prv_data blob q d s =>
    simp only [KeepsFwdBottom] at hc
    simp only [PrvModel.serve, h0, Option.some.injEq]
    rw [if_neg (fun hx => hc hx.2.symm)]
  | set_prv_diff blob q d s =>
    simp only [PrvModel.serve, DescName.isDiff]
    rw [if_neg (fun hx => Bool.noConfusion hx.1)]
    exact h0
  | create_conversions d =>
    simp only [KeepsFwdBottom] at hc
    simp only [PrvModel.serve]
    rw [if_neg (fun e => hc e.symm)]
    exact h0

theorem serve_first_fwd (m : PrvModel) (cache : PrvCache) :
    FwdHoldsBottom m
      (m.serve cache (.get_converted_prv .fwd_bottom_data .bottom0 false none)).1 := by
  intro hn
  simp only [PrvModel.serve, hn, if_true]
  split
  · assumption
  · simp

theorem serve_reuse (m : PrvModel) (cache : PrvCache)
    (hsame : m.sameLayout .fwd_bottom_data .bwdf_bottom_data = true)
    (hneeds : m.needsConversion .bwdf_bottom_data = m.needsConversion .fwd_bottom_data)
    (h : FwdHoldsBottom m cache) (blob : BlobRef) (s : Bool) (r : Option DescName)
    (hc : NamesFwdForReuse (.get_converted_prv .bwdf_bottom_data blob s r)) :
    (m.serve cache (.get_converted_prv .bwdf_bottom_data blob s r)).2 = [] := by
  obtain ⟨hb, _, hr⟩ := hc rfl
  subst hb hr
  simp only [PrvModel.serve]
  split
  · rename_i hn
    rw [hneeds] at hn
    split
    · rfl
    · simp only [hsame, h hn, and_self, if_true]
  · rfl

theorem serveLog_reuse (m : PrvModel)
    (hsame : m.sameLayout .fwd_bottom_data .bwdf_bottom_data = true)
    (hneeds : m.needsConversion .bwdf_bottom_data = m.needsConversion .fwd_bottom_data)
    (cs : List HelperCall) :
    ∀ cache : PrvCache, FwdHoldsBottom m cache →
      (∀ c ∈ cs, KeepsFwdBottom c ∧ NamesFwdForReuse c) →
      ∀ entry ∈ m.serveLog cache cs,
        (∃ blob s r, entry.1 = .get_converted_prv .bwdf_bottom_data blob s r) →
        entry.2 = [] := by
  induction cs with
  | nil => intro cache _ _ entry he; simp [PrvModel.serveLog] at he
  | cons c cs ih =>
    intro cache hinv hall entry he
    simp only [PrvModel.serveLog, List.mem_cons] at he
    have hc := hall c (by simp)
    rcases he with he | he
    · rintro ⟨blob, s, r, hr⟩
      rw [he] at hr ⊢
      simp only at hr ⊢
      rw [hr] at hc ⊢
      exact serve_reuse m cache hsame hneeds hinv blob s r hc.2
    · exact ih _ (serve_keeps_fwd m cache c hc.1 hinv)
        (fun x hx => hall x (by simp [hx])) entry he

/-- C9. The request `Backward_cpu` makes for the source operand of the backward-filter
primitive is for the bottom blob through `bwdf_bottom_data` and names `fwd_bottom_data` as
the conversion to reuse; that request's result is the only source operand it passes to an
execution; and when `Backward_cpu` runs after `Forward_cpu` and the internal layouts of
`fwd_bottom_data` and `bwdf_bottom_data` are equal, serving that request executes no
layout conversion. -/
theorem C9_backward_filter_reuses_forward_conversion (env : Env) (w : World)
    (bottom0 top0 : Blob) (propagate_down0 : Bool) (m : PrvModel) (cache : PrvCache)
    (hsame : m.sameLayout .fwd_bottom_data .bwdf_bottom_data = true)
    (hneeds : m.needsConversion .bwdf_bottom_data = m.needsConversion .fwd_bottom_data) :
    (∀ c ∈ logged (Forward_cpu env bottom0 top0 w).world
        (Backward_cpu env top0 propagate_down0 bottom0 (Forward_cpu env bottom0 top0 w).world),
      NamesFwdForReuse c) ∧
    (∀ e ∈ issued (Forward_cpu env bottom0 top0 w).world
        (Backward_cpu env top0 propagate_down0 bottom0 (Forward_cpu env bottom0 top0 w).world),
      SrcFromReuse e.call) ∧
    (∀ entry ∈ m.serveLog cache
        (logged w (Forward_cpu env bottom0 top0 w) ++
          logged (Forward_cpu env bottom0 top0 w).world
            (Backward_cpu env top0 propagate_down0 bottom0
              (Forward_cpu env bottom0 top0 w).world)),
      (∃ blob s r, entry.1 = .get_converted_prv .bwdf_bottom_data blob s r) →
      entry.2 = []) := by
  have hB : ∀ c ∈ logged (Forward_cpu env bottom0 top0 w).world
      (Backward_cpu env top0 propagate_down0 bottom0 (Forward_cpu env bottom0 top0 w).world),
      KeepsFwdBottom c ∧ NamesFwdForReuse c :=
    logged_of_logsOnly
      (Backward_cpu_logs (P := fun c => KeepsFwdBottom c ∧ NamesFwdForReuse c)
        (fun d b s r h1 h2 => ⟨h2, fun h => absurd h h1⟩)
        ⟨fun h => DescName.noConfusion h, fun _ => ⟨rfl, rfl, rfl⟩⟩
        (fun _ _ _ _ => ⟨trivial, trivial⟩) env top0 propagate_down0 bottom0) _
  refine ⟨fun c hc => (hB c hc).2, Backward_cpu_src_operand env top0 propagate_down0 bottom0 _,
    ?_⟩
  cases h : (bottomShapeCheck w.layer bottom0 && topShapeCheck w.layer top0)
  · have hl := Forward_cpu_layer env bottom0 top0 w
    have h' : (bottomShapeCheck (Forward_cpu env bottom0 top0 w).world.layer bottom0 &&
        topShapeCheck (Forward_cpu env bottom0 top0 w).world.layer top0) = false := by
      rw [hl]; exact h
    rw [Backward_cpu_rejected env top0 propagate_down0 bottom0 _ h', logged_aborted_self,
      Forward_cpu_rejected env bottom0 top0 w h, logged_aborted_self]
    intro entry he
    simp [PrvModel.serveLog] at he
  · simp only [Bool.and_eq_true] at h
    obtain ⟨rest, hrest, hall⟩ := Forward_cpu_logs env bottom0 top0 w h.1 h.2
    rw [hrest]
    intro entry he
    simp only [List.cons_append, List.nil_append, PrvModel.serveLog, List.mem_cons] at he
    rcases he with he | he
    · rintro ⟨blob, s, r, hr⟩
      rw [he] at hr
      simp only at hr
      injection hr with h1
      exact absurd h1 (by decide)
    · refine serveLog_reuse m hsame hneeds _ _ (serve_first_fwd m cache) ?_ entry he
      intro c hc
      rcases List.mem_append.1 hc with h1 | h1
      · exact hall c h1
      · exact hB c h1

/-- C9, witness. On the set-up example layer, with every descriptor needing a conversion
and equal internal layouts, the forward request executes the conversion of
`fwd_bottom_data` and the backward-filter request, which is made, executes none. -/
theorem C9_witness_example_reuse :
    (HelperCall.get_converted_prv .bwdf_bottom_data .bottom0 false (some .fwd_bottom_data)) ∈
      logged (Forward_cpu exampleEnv bottomA topA worldA).world
        (Backward_cpu exampleEnv topA true bottomA
          (Forward_cpu exampleEnv bottomA topA worldA).world) ∧
    (HelperCall.get_converted_prv .fwd_bottom_data .bottom0 false none, [.fwd_bottom_data]) ∈
      exampleModel.serveLog (fun _ => none)
        (logged worldA (Forward_cpu exampleEnv bottomA topA worldA) ++
          logged (Forward_cpu exampleEnv bottomA topA worldA).world
            (Backward_cpu exampleEnv topA true bottomA
              (Forward_cpu exampleEnv bottomA topA worldA).world)) ∧
    (∀ entry ∈ exampleModel.serveLog (fun _ => none)
        (logged worldA (Forward_cpu exampleEnv bottomA topA worldA) ++
          logged (Forward_cpu exampleEnv bottomA topA worldA).world
            (Backward_cpu exampleEnv topA true bottomA
              (Forward_cpu exampleEnv bottomA topA worldA).world)),
      (∃ blob s r, entry.1 = .get_converted_prv .bwdf_bottom_data blob s r) →
      entry.2 = []) :=
  ⟨by decide, by decide,
    (C9_backward_filter_reuses_forward_conversion exampleEnv worldA bottomA topA true
      exampleModel (fun _ => none) rfl rfl).2.2⟩

theorem wrapInt32_of_range {x : Int} (h : IsInt32 x) : wrapInt32 x = x := by
  unfold IsInt32 at h
  unfold wrapInt32
  norm_num at h ⊢
  omega

theorem outDimChecked_exact {input pad kernel stride : Int}
    (hi : 0 ≤ input) (hp : 0 ≤ pad) (hk : 1 ≤ kernel) (hs : 1 ≤ stride)
    (hfit : kernel ≤ input + 2 * pad) (hmax : input + 2 * pad < 2 ^ 31) :
    outDimChecked input pad kernel stride =
      some ((input + 2 * pad - kernel) / stride + 1) := by
  have hmax2 : input + 2 * pad < 2147483648 := by norm_num at hmax; exact hmax
  have hN : 0 ≤ input + 2 * pad - kernel := by omega
  have hq0 : 0 ≤ (input + 2 * pad - kernel) / stride := Int.ediv_nonneg hN (by omega)
  have hqN : (input + 2 * pad - kernel) / stride ≤ input + 2 * pad - kernel :=
    Int.ediv_le_self _ hN
  have r1 : wrapInt32 (2 * pad) = 2 * pad :=
    wrapInt32_of_range (by unfold IsInt32; norm_num; omega)
  have r2 : wrapInt32 (input + 2 * pad) = input + 2 * pad :=
    wrapInt32_of_range (by unfold IsInt32; norm_num; omega)
  have r3 : wrapInt32 (input + 2 * pad - kernel) = input + 2 * pad - kernel :=
    wrapInt32_of_range (by unfold IsInt32; norm_num; omega)
  have r4 : wrapInt32 ((input + 2 * pad - kernel) / stride + 1) =
      (input + 2 * pad - kernel) / stride + 1 :=
    wrapInt32_of_range (by unfold IsInt32; norm_num; omega)
  have hd : intDiv (input + 2 * pad - kernel) stride =
      some ((input + 2 * pad - kernel) / stride) := by
    unfold intDiv
    rw [if_neg (by omega), Int.tdiv_eq_ediv hN (by omega)]
  unfold outDimChecked
  rw [r1, r2, r3, hd, Option.map_some', r4]

theorem countsPositions_quotient {input pad kernel stride : Int}
    (hs : 1 ≤ stride) (hfit : kernel ≤ input + 2 * pad) :
    CountsPositions input pad kernel stride ((input + 2 * pad - kernel) / stride + 1) ∧
    ∀ k, CountsPositions input pad kernel stride k →
      k = (input + 2 * pad - kernel) / stride + 1 := by
  have hN : 0 ≤ input + 2 * pad - kernel := by omega
  have hs0 : 0 < stride := by omega
  have hq0 : 0 ≤ (input + 2 * pad - kernel) / stride := Int.ediv_nonneg hN (by omega)
  have hlo : (input + 2 * pad - kernel) / stride * stride ≤ input + 2 * pad - kernel :=
    Int.ediv_mul_le _ (by omega)
  have hhi : input + 2 * pad - kernel < ((input + 2 * pad - kernel) / stride + 1) * stride :=
    Int.lt_ediv_add_one_mul_self _ hs0
  refine ⟨⟨by omega, ?_, by omega⟩, ?_⟩
  · have : (input + 2 * pad - kernel) / stride + 1 - 1 = (input + 2 * pad - kernel) / stride := by
      omega
    rw [this]; omega
  · rintro k ⟨_, h2, h3⟩
    have a1 : k - 1 ≤ (input + 2 * pad - kernel) / stride :=
      Int.le_ediv_of_mul_le hs0 (by omega)
    have a2 : (input + 2 * pad - kernel) / stride < k :=
      Int.ediv_lt_of_lt_mul hs0 (by omega)
    omega

theorem outDim_counts {input pad kernel stride : Int}
    (hi : 0 ≤ input) (hp : 0 ≤ pad) (hk : 1 ≤ kernel) (hs : 1 ≤ stride)
    (hfit : kernel ≤ input + 2 * pad) (hmax : input + 2 * pad < 2 ^ 31) :
    outDimChecked input pad kernel stride = some (outDim input pad kernel stride) ∧
    CountsPositions input pad kernel stride (outDim input pad kernel stride) ∧
    ∀ k, CountsPositions input pad kernel stride k → k = outDim input pad kernel stride := by
  have he := outDimChecked_exact hi hp hk hs hfit hmax
  have hv : outDim input pad kernel stride = (input + 2 * pad - kernel) / stride + 1 := by
    unfold outDim
    rw [he]
    rfl
  rw [hv]
  exact ⟨he, countsPositions_quotient hs hfit⟩

/-- C11, counterexample. With `height_ = 8`, `pad_h_ = 2 ^ 30`, `kernel_h_ = 3` and
`stride_h_ = 1`, all of them `int` values that satisfy the conditions of the claim
(`height_ >= 0`, `pad_h_ >= 0`, `kernel_h_ >= 1`, `stride_h_ >= 1`,
`kernel_h_ <= height_ + 2 * pad_h_`), the product `2 * pad_h_` leaves the range of `int`:
the division does not trap and `compute_output_shape` stores `height_out_ = -2147483642`,
which is not `>= 1` and is not the number of kernel positions (that number, 2147483654,
is no `int`).  The state is the one `LayerSetUp` leaves for a layer configured with that
padding, which stored the same value. -/
theorem C11_counterexample_pad_overflow :
    worldPadded.layer.height_ = 8 ∧ worldPadded.layer.pad_h_ = 1073741824 ∧
    worldPadded.layer.kernel_h_ = 3 ∧ worldPadded.layer.stride_h_ = 1 ∧
    (IsInt32 worldPadded.layer.height_ ∧ IsInt32 worldPadded.layer.pad_h_ ∧
      IsInt32 worldPadded.layer.kernel_h_ ∧ IsInt32 worldPadded.layer.stride_h_) ∧
    (0 ≤ worldPadded.layer.height_ ∧ 0 ≤ worldPadded.layer.pad_h_ ∧
      1 ≤ worldPadded.layer.kernel_h_ ∧ 1 ≤ worldPadded.layer.stride_h_ ∧
      worldPadded.layer.kernel_h_ ≤
        worldPadded.layer.height_ + 2 * worldPadded.layer.pad_h_) ∧
    outDimChecked worldPadded.layer.height_ worldPadded.layer.pad_h_
      worldPadded.layer.kernel_h_ worldPadded.layer.stride_h_ = some (-2147483642) ∧
    (compute_output_shape worldPadded).world.layer.height_out_ = -2147483642 ∧
    worldPadded.layer.height_out_ = -2147483642 ∧
    ¬ 1 ≤ (compute_output_shape worldPadded).world.layer.height_out_ ∧
    ¬ CountsPositions worldPadded.layer.height_ worldPadded.layer.pad_h_
        worldPadded.layer.kernel_h_ worldPadded.layer.stride_h_
        (compute_output_shape worldPadded).world.layer.height_out_ ∧
    CountsPositions worldPadded.layer.height_ worldPadded.layer.pad_h_
        worldPadded.layer.kernel_h_ worldPadded.layer.stride_h_ 2147483654 ∧
    ¬ IsInt32 2147483654 := by
  refine ⟨by decide, by decide, by decide, by decide, by decide, by decide, by decide,
    by decide, by decide, by decide, by decide, by decide, by decide⟩

/-- C11, amended. Along each axis, when `height_ >= 0`, `pad_h_ >= 0`, `kernel_h_ >= 1`,
`stride_h_ >= 1`, `kernel_h_ <= height_ + 2 * pad_h_` and the padded extent
`height_ + 2 * pad_h_` is an `int` (at most `INT_MAX = 2 ^ 31 - 1`), the division of
`compute_output_shape` does not trap, no operation wraps around, and the stored
`height_out_` is the unique `k >= 1` with `(k-1) * stride_h_ + kernel_h_ <=
height_ + 2 * pad_h_ < k * stride_h_ + kernel_h_`; the same for `width_out_` with
`width_`, `pad_w_`, `kernel_w_`, `stride_w_`.  When the conditions hold on both axes the
call returns normally. -/
theorem C11_output_shape_counts_kernel_positions (w : World) :
    (0 ≤ w.layer.height_ → 0 ≤ w.layer.pad_h_ → 1 ≤ w.layer.kernel_h_ →
      1 ≤ w.layer.stride_h_ → w.layer.kernel_h_ ≤ w.layer.height_ + 2 * w.layer.pad_h_ →
      w.layer.height_ + 2 * w.layer.pad_h_ < 2 ^ 31 →
      outDimChecked w.layer.height_ w.layer.pad_h_ w.layer.kernel_h_ w.layer.stride_h_ =
        some (compute_output_shape w).world.layer.height_out_ ∧
      (compute_output_shape w).world.layer.height_out_ =
        (w.layer.height_ + 2 * w.layer.pad_h_ - w.layer.kernel_h_) / w.layer.stride_h_ + 1 ∧
      CountsPositions w.layer.height_ w.layer.pad_h_ w.layer.kernel_h_ w.layer.stride_h_
        (compute_output_shape w).world.layer.height_out_ ∧
      ∀ k, CountsPositions w.layer.height_ w.layer.pad_h_ w.layer.kernel_h_
          w.layer.stride_h_ k → k = (compute_output_shape w).world.layer.height_out_) ∧
    (0 ≤ w.layer.width_ → 0 ≤ w.layer.pad_w_ → 1 ≤ w.layer.kernel_w_ →
      1 ≤ w.layer.stride_w_ → w.layer.kernel_w_ ≤ w.layer.width_ + 2 * w.layer.pad_w_ →
      w.layer.width_ + 2 * w.layer.pad_w_ < 2 ^ 31 →
      outDimChecked w.layer.width_ w.layer.pad_w_ w.layer.kernel_w_ w.layer.stride_w_ =
        some (compute_output_shape w).world.layer.width_out_ ∧
      (compute_output_shape w).world.layer.width_out_ =
        (w.layer.width_ + 2 * w.layer.pad_w_ - w.layer.kernel_w_) / w.layer.stride_w_ + 1 ∧
      CountsPositions w.layer.width_ w.layer.pad_w_ w.layer.kernel_w_ w.layer.stride_w_
        (compute_output_shape w).world.layer.width_out_ ∧
      ∀ k, CountsPositions w.layer.width_ w.layer.pad_w_ w.layer.kernel_w_
          w.layer.stride_w_ k → k = (compute_output_shape w).world.layer.width_out_) ∧
    ((outDimChecked w.layer.height_ w.layer.pad_h_ w.layer.kernel_h_
        w.layer.stride_h_).isSome = true →
      (outDimChecked w.layer.width_ w.layer.pad_w_ w.layer.kernel_w_
        w.layer.stride_w_).isSome = true →
      (compute_output_shape w).isAborted = false ∧
      (compute_output_shape w).world.trace = w.trace) := by
  refine ⟨fun hi hp hk hs hfit hmax => ?_, fun hi hp hk hs hfit hmax => ?_,
    fun _ _ => ⟨rfl, rfl⟩⟩
  · have h := outDim_counts hi hp hk hs hfit hmax
    have hv := outDimChecked_exact hi hp hk hs hfit hmax
    refine ⟨h.1, ?_, h.2.1, h.2.2⟩
    exact Option.some.inj (h.1.symm.trans hv)
  · have h := outDim_counts hi hp hk hs hfit hmax
    have hv := outDimChecked_exact hi hp hk hs hfit hmax
    refine ⟨h.1, ?_, h.2.1, h.2.2⟩
    exact Option.some.inj (h.1.symm.trans hv)

/-- C11, witness. The layer set up with stride 2, pad 1 and a 3 x 3 kernel on a 16 x 16
input satisfies the conditions on both axes; 8 kernel positions are stored for each. -/
theorem C11_witness_stride_two :
    (worldStrided.layer.height_ = 16 ∧ worldStrided.layer.pad_h_ = 1 ∧
      worldStrided.layer.kernel_h_ = 3 ∧ worldStrided.layer.stride_h_ = 2 ∧
      worldStrided.layer.width_ = 16 ∧ worldStrided.layer.pad_w_ = 1 ∧
      worldStrided.layer.kernel_w_ = 3 ∧ worldStrided.layer.stride_w_ = 2) ∧
    (compute_output_shape worldStrided).world.layer.height_out_ = 8 ∧
    (compute_output_shape worldStrided).world.layer.width_out_ = 8 ∧
    CountsPositions 16 1 3 2 (compute_output_shape worldStrided).world.layer.height_out_ ∧
    CountsPositions 16 1 3 2 (compute_output_shape worldStrided).world.layer.width_out_ :=
  ⟨by decide, by decide, by decide,
    ((C11_output_shape_counts_kernel_positions worldStrided).1
      (by decide) (by decide) (by decide) (by decide) (by decide) (by decide)).2.2.1,
    ((C11_output_shape_counts_kernel_positions worldStrided).2.1
      (by decide) (by decide) (by decide) (by decide) (by decide) (by decide)).2.2.1⟩

theorem Reshape_changed_run (env : Env) (bottom0 : Blob) (w : World)
    (h : ¬ ShapeUnchanged w.layer bottom0) :
    (∃ c s hd rest, issued w (Reshape env bottom0 w) =
        { call := .dnnDelete w.layer.convolutionFwd, status := none, handle := none } ::
        { call := .dnnDelete w.layer.convolutionBwdData, status := none, handle := none } ::
        { call := c, status := some s, handle := hd } :: rest ∧
        isForwardCreate c = true) ∧
    (Reshape env bottom0 w).world.layer.width_ = bottom0.width ∧
    (Reshape env bottom0 w).world.layer.height_ = bottom0.height ∧
    (Reshape env bottom0 w).world.layer.num_ = bottom0.num ∧
    (Reshape env bottom0 w).world.layer.bottom_shape_ = some bottom0.id ∧
    ((Reshape env bottom0 w).isAborted = false →
      (∃ c1 c2, issued w (Reshape env bottom0 w) =
        [{ call := .dnnDelete w.layer.convolutionFwd, status := none, handle := none },
         { call := .dnnDelete w.layer.convolutionBwdData, status := none, handle := none },
         { call := c1, status := some 0, handle := some w.fresh },
         { call := c2, status := some 0, handle := some (w.fresh + 1) }] ∧
        isForwardCreate c1 = true ∧ isBackwardDataCreate c2 = true) ∧
      (Reshape env bottom0 w).world.layer.convolutionFwd = some w.fresh ∧
      (Reshape env bottom0 w).world.layer.convolutionBwdData = some (w.fresh + 1)) ∧
    (env.status (w.trace.length + 2) = 0 → env.status (w.trace.length + 3) = 0 →
      (Reshape env bottom0 w).isAborted = false) := by
  unfold ShapeUnchanged at h
  cases hb : w.layer.bias_term_ <;>
    by_cases h2 : env.status (w.trace.length + 2) = 0 <;>
    by_cases h3 : env.status (w.trace.length + 3) = 0 <;>
    simp [Reshape, bind_apply, pure_apply, createPrimitive, CHECK_EQ, getLayer,
      modifyLayer, compute_output_shape, dnnDelete, h, h2, h3,
      dnnGroupsConvolutionCreateForward, dnnGroupsConvolutionCreateForwardBias,
      dnnGroupsConvolutionCreateBackwardData, hb, Layer.setPrim, issued, Outcome.world,
      Outcome.isAborted, isForwardCreate, isBackwardDataCreate] <;>
    exact ⟨_, _, ⟨rfl, rfl⟩, rfl, rfl⟩


/-- C13. When the bottom's width, height, channels and num equal the cached ones,
`Reshape` returns with the world unchanged: no vendor call, and the same primitive
handles, `width_`, `height_`, `num_` and `bottom_shape_`.  When one of them differs, it
first deletes the forward and the backward-data primitive it holds, leaves `width_`,
`height_`, `num_` at the bottom's values, and goes on to the forward creation call; when
it returns normally (as it does when the two creations succeed) it has issued exactly the
two deletions and the two creations and holds the two new handles. -/
theorem C13_Reshape_noop_iff_shape_unchanged (env : Env) (bottom0 : Blob) (w : World) :
    (ShapeUnchanged w.layer bottom0 →
      Reshape env bottom0 w = .returned () w ∧ issued w (Reshape env bottom0 w) = [] ∧
      (Reshape env bottom0 w).world.layer.convolutionFwd = w.layer.convolutionFwd ∧
      (Reshape env bottom0 w).world.layer.convolutionBwdData = w.layer.convolutionBwdData ∧
      (Reshape env bottom0 w).world.layer.convolutionBwdFilter =
        w.layer.convolutionBwdFilter ∧
      (Reshape env bottom0 w).world.layer.convolutionBwdBias = w.layer.convolutionBwdBias ∧
      (Reshape env bottom0 w).world.layer.width_ = w.layer.width_ ∧
      (Reshape env bottom0 w).world.layer.height_ = w.layer.height_ ∧
      (Reshape env bottom0 w).world.layer.num_ = w.layer.num_ ∧
      (Reshape env bottom0 w).world.layer.bottom_shape_ = w.layer.bottom_shape_) ∧
    (¬ ShapeUnchanged w.layer bottom0 →
      (∃ c s hd rest, issued w (Reshape env bottom0 w) =
          { call := .dnnDelete w.layer.convolutionFwd, status := none, handle := none } ::
          { call := .dnnDelete w.layer.convolutionBwdData, status := none, handle := none } ::
          { call := c, status := some s, handle := hd } :: rest ∧
          isForwardCreate c = true) ∧
      (Reshape env bottom0 w).world.layer.width_ = bottom0.width ∧
      (Reshape env bottom0 w).world.layer.height_ = bottom0.height ∧
      (Reshape env bottom0 w).world.layer.num_ = bottom0.num ∧
      (Reshape env bottom0 w).world.layer.bottom_shape_ = some bottom0.id ∧
      ((Reshape env bottom0 w).isAborted = false →
        (∃ c1 c2, issued w (Reshape env bottom0 w) =
          [{ call := .dnnDelete w.layer.convolutionFwd, status := none, handle := none },
           { call := .dnnDelete w.layer.convolutionBwdData, status := none, handle := none },
           { call := c1, status := some 0, handle := some w.fresh },
           { call := c2, status := some 0, handle := some (w.fresh + 1) }] ∧
          isForwardCreate c1 = true ∧ isBackwardDataCreate c2 = true) ∧
        (Reshape env bottom0 w).world.layer.convolutionFwd = some w.fresh ∧
        (Reshape env bottom0 w).world.layer.convolutionBwdData = some (w.fresh + 1)) ∧
      (env.status (w.trace.length + 2) = 0 → env.status (w.trace.length + 3) = 0 →
        (Reshape env bottom0 w).isAborted = false)) := by
  refine ⟨fun h => ?_, Reshape_changed_run env bottom0 w⟩
  have hrun : Reshape env bottom0 w = .returned () w := Reshape_same bottom0 w h
  rw [hrun]
  refine ⟨rfl, ?_, rfl, rfl, rfl, rfl, rfl, rfl, rfl, rfl⟩
  simp [issued, Outcome.world]

/-- C13, witness. The set-up example layer: `Reshape` on the bottom it was set up with
changes nothing, and on a larger bottom it returns with four vendor calls issued. -/
theorem C13_witness_example_reshape :
    (Reshape exampleEnv bottomA worldA).isAborted = false ∧
    issued worldA (Reshape exampleEnv bottomA worldA) = [] ∧
    (Reshape exampleEnv bottomB worldA).isAborted = false ∧
    (Reshape exampleEnv bottomB worldA).world.layer.width_ = bottomB.width :=
  ⟨by decide,
   ((C13_Reshape_noop_iff_shape_unchanged exampleEnv bottomA worldA).1 (by decide)).2.1,
   ((C13_Reshape_noop_iff_shape_unchanged exampleEnv bottomB worldA).2 (by decide)).2.2.2.2.2.2
     rfl rfl,
   ((C13_Reshape_noop_iff_shape_unchanged exampleEnv bottomB worldA).2 (by decide)).2.1⟩

theorem dnnExecute_ok {env : Env} (hs : ∀ k, env.status k = 0) (prim : PrimRef)
    (res : List (Resource × Ptr)) (w : World) :
    dnnExecute env prim res w = .returned 0
      { w with trace := w.trace ++ [{ call := .dnnExecute prim res, status := some 0,
                                      handle := none }] } := by
  simp [dnnExecute, hs]

set_option maxRecDepth 8192 in
set_option maxHeartbeats 4000000 in
theorem Backward_cpu_weight_gradient {env : Env} (hs : ∀ k, env.status k = 0)
    (top0 : Blob) (p : Bool) (bottom0 : Blob) (w : World)
    (h1 : bottomShapeCheck w.layer bottom0 = true) (h2 : topShapeCheck w.layer top0 = true)
    (hpd : w.layer.param_propagate_down_.1 = true) :
    (Backward_cpu env top0 p bottom0 w).isAborted = false ∧
    diffFilterOperands (issued w (Backward_cpu env top0 p bottom0 w)) =
      [if (w.layer.descs .bwdf2fwd_filter_diff).convert_from_int
        then .prv_ptr .bwdf2fwd_filter_diff
        else if (w.layer.descs .bwdf_filter_diff).convert_from_int
          then .prv_ptr .bwdf_filter_diff
          else .mutable_cpu_diff .blobs_0] ∧
    filterDiffConversions (issued w (Backward_cpu env top0 p bottom0 w)) =
      (if (w.layer.descs .bwdf2fwd_filter_diff).convert_from_int
        then [[(.dnnResourceFrom, .prv_ptr .bwdf2fwd_filter_diff),
               (.dnnResourceTo,
                 if (w.layer.descs .bwdf_filter_diff).convert_from_int
                   then .prv_ptr .bwdf_filter_diff
                   else .mutable_cpu_diff .blobs_0)]]
        else []) ∧
    weightDiffRegistrations (logged w (Backward_cpu env top0 p bottom0 w)) =
      (if (w.layer.descs .bwdf_filter_diff).convert_from_int
        then [(.prv_ptr .bwdf_filter_diff, .bwdf_filter_diff)]
        else []) := by
  cases hp : p <;>
  cases ha : (w.layer.descs .bwdd_bottom_diff).convert_from_int <;>
  cases hf1 : (w.layer.descs .bwdf_filter_diff).convert_from_int <;>
  cases hf2 : (w.layer.descs .bwdf2fwd_filter_diff).convert_from_int <;>
  cases hp2 : w.layer.param_propagate_down_.2 <;>
  cases hbb : (w.layer.descs .bwdb_bias_diff).convert_from_int <;>
  simp [Backward_cpu, bind_apply, pure_apply, getLayer, CHECK, CHECK_EQ, h1, h2, hpd,
    ha, hf1, hf2, hp2, hbb, dnnExecute_ok hs, get_converted_prv, helper, issued, logged,
    Outcome.world, Outcome.isAborted, diffFilterOperands, filterDiffConversions,
    weightDiffRegistrations, List.lookup] <;>
  rfl


/-- C12. With `param_propagate_down(0)` set, blobs of the layer's shape and every vendor
call succeeding, `Backward_cpu` returns normally and, for each combination of the two
flags: the weight gradient ends in the private buffer of `bwdf_filter_diff` when
`bwdf_filter_diff->convert_from_int` is present and in the weight blob's cpu diff
otherwise; the weight blob's private diff is registered to `bwdf_filter_diff` exactly in
the former case; the extra conversion is executed exactly when
`bwdf2fwd_filter_diff->convert_from_int` is present, from the private buffer of
`bwdf2fwd_filter_diff`, into which the backward-filter primitive then wrote; without it
the backward-filter primitive wrote to the final destination directly. -/
theorem C12_weight_gradient_ends_where_blob_expects (env : Env) (hs : ∀ k, env.status k = 0)
    (top0 : Blob) (propagate_down0 : Bool) (bottom0 : Blob) (w : World)
    (h1 : bottomShapeCheck w.layer bottom0 = true) (h2 : topShapeCheck w.layer top0 = true)
    (hpd : w.layer.param_propagate_down_.1 = true) :
    (Backward_cpu env top0 propagate_down0 bottom0 w).isAborted = false ∧
    weightGradientDestination (issued w (Backward_cpu env top0 propagate_down0 bottom0 w)) =
      some (if (w.layer.descs .bwdf_filter_diff).convert_from_int
        then .prv_ptr .bwdf_filter_diff else .mutable_cpu_diff .blobs_0) ∧
    weightDiffRegistrations (logged w (Backward_cpu env top0 propagate_down0 bottom0 w)) =
      (if (w.layer.descs .bwdf_filter_diff).convert_from_int
        then [(.prv_ptr .bwdf_filter_diff, .bwdf_filter_diff)] else []) ∧
    ((filterDiffConversions (issued w (Backward_cpu env top0 propagate_down0 bottom0 w))
        ≠ []) ↔ (w.layer.descs .bwdf2fwd_filter_diff).convert_from_int = true) ∧
    ((w.layer.descs .bwdf2fwd_filter_diff).convert_from_int = true →
      diffFilterOperands (issued w (Backward_cpu env top0 propagate_down0 bottom0 w)) =
        [.prv_ptr .bwdf2fwd_filter_diff] ∧
      filterDiffConversions (issued w (Backward_cpu env top0 propagate_down0 bottom0 w)) =
        [[(.dnnResourceFrom, .prv_ptr .bwdf2fwd_filter_diff),
          (.dnnResourceTo,
            if (w.layer.descs .bwdf_filter_diff).convert_from_int
              then .prv_ptr .bwdf_filter_diff else .mutable_cpu_diff .blobs_0)]]) ∧
    ((w.layer.descs .bwdf2fwd_filter_diff).convert_from_int = false →
      diffFilterOperands (issued w (Backward_cpu env top0 propagate_down0 bottom0 w)) =
        [if (w.layer.descs .bwdf_filter_diff).convert_from_int
          then .prv_ptr .bwdf_filter_diff else .mutable_cpu_diff .blobs_0]) := by
  obtain ⟨hret, hdf, hconv, hreg⟩ :=
    Backward_cpu_weight_gradient hs top0 propagate_down0 bottom0 w h1 h2 hpd
  refine ⟨hret, ?_, hreg, ?_, ?_, ?_⟩
  · unfold weightGradientDestination
    rw [hconv, hdf]
    cases hf2 : (w.layer.descs .bwdf2fwd_filter_diff).convert_from_int <;>
      cases hf1 : (w.layer.descs .bwdf_filter_diff).convert_from_int <;> rfl
  · rw [hconv]
    cases hf2 : (w.layer.descs .bwdf2fwd_filter_diff).convert_from_int <;> simp
  · intro hf2
    rw [hdf, hconv, hf2]
    exact ⟨rfl, rfl⟩
  · intro hf2
    rw [hdf, hf2]
    rfl

/-- C12, witness. With every conversion present, the gradient of the example layer goes
through the extra conversion into the private buffer of `bwdf_filter_diff`. -/
theorem C12_witness_all_conversions :
    weightGradientDestination (issued worldConv (Backward_cpu exampleEnv topA true bottomA
      worldConv)) = some (.prv_ptr .bwdf_filter_diff) ∧
    filterDiffConversions (issued worldConv (Backward_cpu exampleEnv topA true bottomA
      worldConv)) =
      [[(.dnnResourceFrom, .prv_ptr .bwdf2fwd_filter_diff),
        (.dnnResourceTo, .prv_ptr .bwdf_filter_diff)]] :=
  ⟨(C12_weight_gradient_ends_where_blob_expects exampleEnv (fun _ => rfl) topA true bottomA
      worldConv (by decide) (by decide) (by decide)).2.1,
   ((C12_weight_gradient_ends_where_blob_expects exampleEnv (fun _ => rfl) topA true bottomA
      worldConv (by decide) (by decide) (by decide)).2.2.2.2.1 (by decide)).2⟩

end MKLConv
